import Mathlib

/-!
The dicom-go-server repository: a shallow embedding of its three HTTP handlers.

Both variants of the repository (`dicom-go-server/main.go` and
`dicom-go-server-with-frontend/main.go`) are embedded.  Go strings are byte
sequences, so a `GoString` is a list of byte values; `len`, slicing and
`strconv.ParseUint` all work on bytes.  The file system below `uploadDir` is a
partial map from paths to file contents.  The DICOM library, `filepath.Join`,
the PNG encoder and the JSON encoder are external collaborators and enter the
handlers as a record of functions (`Lib`).  A call into the DICOM library
returns a value, returns an error, or panics; the handlers have no `recover`,
so a panic ends the request without a response.
-/

namespace DicomGoServer

/-! ## Go strings -/

/-- A Go string: a sequence of bytes (each value below 256). -/
abbrev GoString := List Nat

/-- UTF-8 encoding of one code point, as the Go compiler stores a source literal. -/
def utf8EncodeRune (c : Nat) : List Nat :=
  if c < 0x80 then [c]
  else if c < 0x800 then [0xC0 + c / 64, 0x80 + c % 64]
  else if c < 0x10000 then [0xE0 + c / 4096, 0x80 + c / 64 % 64, 0x80 + c % 64]
  else [0xF0 + c / 262144, 0x80 + c / 4096 % 64, 0x80 + c / 64 % 64, 0x80 + c % 64]

/-- The bytes of a Go string literal. -/
def lit (s : String) : GoString :=
  s.data.flatMap (fun c => utf8EncodeRune c.toNat)

/-! ## strconv.ParseUint (Go standard library) -/

/-- The error kinds of `strconv.NumError`. -/
inductive NumError where
  | ErrSyntax
  | ErrRange
  | ErrBase
  | ErrBitSize
deriving DecidableEq, Repr

/-- Largest `uint64`. -/
def maxUint64 : Nat := 2 ^ 64 - 1

/-- Go: `lower(c) = c | ('x' - 'X')`. -/
def lower (c : Nat) : Nat := c ||| 32

/-- The digit value `d` that the loop of `ParseUint` assigns to byte `c`
(`none`: the `default` arm, a syntax error).  The underscore arm is guarded by
`base0`, which is false for every call in this repository. -/
def digitVal (c : Nat) : Option Nat :=
  if 48 ≤ c ∧ c ≤ 57 then some (c - 48)
  else if 97 ≤ lower c ∧ lower c ≤ 122 then some (lower c - 97 + 10)
  else none

/-- The `for _, c := range []byte(s)` loop of `ParseUint`, with accumulator `n`
(a `uint64`, hence the reductions modulo `2 ^ 64`). -/
def parseLoop (base maxVal cutoff : Nat) : List Nat → Nat → Nat × Option NumError
  | [], n => (n, none)
  | c :: cs, n =>
    match digitVal c with
    | none => (0, some NumError.ErrSyntax)
    | some d =>
      if d ≥ base then (0, some NumError.ErrSyntax)
      else if n ≥ cutoff then (maxVal, some NumError.ErrRange)
      else
        let m := (n * base) % 2 ^ 64
        let n1 := (m + d) % 2 ^ 64
        if n1 < m ∨ n1 > maxVal then (maxVal, some NumError.ErrRange)
        else parseLoop base maxVal cutoff cs n1

/-- Go: `strconv.ParseUint(s, base, bitSize)` for an explicit base `2..36`.
The prefix detection of `base == 0` is not embedded (the repository only calls
it with base 16); that case is reported as `ErrBase` here. -/
def ParseUint (s : GoString) (base bitSize : Nat) : Nat × Option NumError :=
  if s = [] then (0, some NumError.ErrSyntax)
  else if ¬ (2 ≤ base ∧ base ≤ 36) then (0, some NumError.ErrBase)
  else if bitSize > 64 then (0, some NumError.ErrBitSize)
  else
    let bits := if bitSize = 0 then 64 else bitSize
    let cutoff := maxUint64 / base + 1
    let maxVal := 2 ^ bits - 1
    parseLoop base maxVal cutoff s 0

/-- Go: the conversion `uint16(v)`. -/
def toUint16 (v : Nat) : Nat := v % 2 ^ 16

/-- Go (`dicom-go-server/main.go`): `parseHex`, a 4-hex-digit string to `uint16`. -/
def parseHex (s : GoString) : Nat × Option NumError :=
  let r := ParseUint s 16 16
  (toUint16 r.1, r.2)

/-! ## net/http response writer -/

/-- What a handler has sent: the status line (once written) and the body. -/
structure ResponseWriter where
  status : Option Nat
  body : GoString
deriving DecidableEq, Repr

/-- A fresh response writer: nothing written yet. -/
def newWriter : ResponseWriter := ⟨none, []⟩

/-- Go: `w.WriteHeader(code)`; a second call is ignored. -/
def ResponseWriter.WriteHeader (w : ResponseWriter) (code : Nat) : ResponseWriter :=
  match w.status with
  | some _ => w
  | none => ⟨some code, w.body⟩

/-- Go: `w.Write(b)`; writes the header with 200 when none was written. -/
def ResponseWriter.Write (w : ResponseWriter) (b : GoString) : ResponseWriter :=
  ⟨some (w.status.getD 200), w.body ++ b⟩

/-- Go: `http.Error(w, msg, code)`: `WriteHeader(code)` then `Fprintln(w, msg)`. -/
def httpError (w : ResponseWriter) (msg : String) (code : Nat) : ResponseWriter :=
  (w.WriteHeader code).Write (lit msg ++ [10])

/-- The status the client receives: 200 when the handler returned without
writing a header. -/
def ResponseWriter.StatusCode (w : ResponseWriter) : Nat := w.status.getD 200

/-- The status the client receives from a handler run; `none` when the handler
panicked before writing: `net/http` recovers the panic and closes the
connection without a response. -/
def statusOf (r : Option ResponseWriter) : Option Nat :=
  r.map ResponseWriter.StatusCode

/-! ## The DICOM library and the other collaborators -/

/-- The outcome of a call into the DICOM library: a value, a returned error,
or a panic (the library indexes and type-asserts parsed values without
checking them). -/
inductive Call (α : Type) where
  | ok (a : α)
  | err
  | panic

/-- Go: `tag.Tag`, a pair of `uint16`. -/
structure Tag where
  Group : Nat
  Element : Nat
deriving DecidableEq, Repr

/-- Go: `tag.PixelData`, (7FE0,0010). -/
def PixelData : Tag := ⟨0x7FE0, 0x0010⟩

/-- Go: `dicom.Element`, restricted to the two fields the handlers read. -/
structure Element (V : Type) where
  Tag : DicomGoServer.Tag
  Value : V

/-- Go: `dicom.Dataset`, the list `Elements`. -/
abbrev Dataset (V : Type) := List (Element V)

/-- Go: `(*Dataset).FindElementByTag`: the first top-level element with the
tag, or `ErrorElementNotFound` (`none`). -/
def FindElementByTag {V : Type} (ds : Dataset V) (t : Tag) : Option (Element V) :=
  ds.find? (fun e => decide (e.Tag = t))

/-- The external functions the handlers call.  `V`, `F`, `I` are the library
types `dicom.Value`, `frame.Frame` and `image.Image`. -/
structure Lib (V F I : Type) where
  /-- Go: `filepath.Join(uploadDir, name)`. -/
  Join : GoString → GoString
  /-- Go: `dicom.Parse` on the bytes of a file: a dataset, a returned parse
  error, or a panic inside the parser. -/
  Parse : GoString → Call (Dataset V)
  /-- Go: the `%v` rendering of a `dicom.Value`. -/
  Sprint : V → GoString
  /-- Go: `dicom.MustGetPixelDataInfo(v).Frames`; `none` is the panic on a
  value that is not pixel data. -/
  Frames : V → Option (List F)
  /-- Go: `(*frame.Frame).GetImage`: an image, a returned error, or a panic
  inside the conversion. -/
  GetImage : F → Call I
  /-- Go: `png.Encode(w, img)`: the bytes it writes to `w` and whether it
  returns an error. -/
  Encode : I → GoString × Bool
  /-- Go: `json.NewEncoder(w).Encode(map[string]string\x7b"file": name\x7d)`:
  the bytes written. -/
  EncodeFile : GoString → GoString

/-- The state shared between requests: the files on disk, and (for
observation only) the paths handed to `dicom.ParseFile` so far. -/
structure World where
  fs : GoString → Option GoString
  parsed : List GoString

/-- Go: `dicom.ParseFile(path, nil)`: open the file, then parse its bytes.
A missing file is a returned error (`os.Open` fails before any parsing); on an
existing file the outcome is the parser's: dataset, returned error or panic. -/
def ParseFile {V F I : Type} (lib : Lib V F I) (s : World) (path : GoString) :
    World × Call (Dataset V) :=
  (⟨s.fs, s.parsed ++ [path]⟩,
    match s.fs path with
    | none => Call.err
    | some bytes => lib.Parse bytes)

/-! ## Handlers of `dicom-go-server/main.go` -/

/-- Go: `headerHandler` (lines 68-100).  The handler has no `recover`: the
result is `none` when `dicom.ParseFile` panics. -/
def headerHandler {V F I : Type} (lib : Lib V F I) (s : World)
    (fileName tagStr : GoString) : World × Option ResponseWriter :=
  let w := newWriter
  if fileName = [] ∨ tagStr = [] then
    (s, some (httpError w "need both ‘file’ and ‘tag’ query params" 400))
  else if tagStr.length ≠ 8 then
    (s, some (httpError w "tag must be 8-hex chars (e.g. 00100010)" 400))
  else
    let r1 := parseHex (tagStr.take 4)
    let r2 := parseHex (tagStr.drop 4)
    if r1.2 ≠ none ∨ r2.2 ≠ none then
      (s, some (httpError w "invalid hex in tag" 400))
    else
      match ParseFile lib s (lib.Join fileName) with
      | (s1, Call.panic) => (s1, none)
      | (s1, Call.err) => (s1, some (httpError w "failed to parse DICOM" 500))
      | (s1, Call.ok ds) =>
        match FindElementByTag ds ⟨r1.1, r2.1⟩ with
        | none => (s1, some (httpError w "tag not found" 404))
        | some elem =>
          (s1, some (w.Write (lit "Tag " ++ tagStr ++ lit " → " ++ lib.Sprint elem.Value)))

/-! ## fmt.Sprintf("%d_%s", ts, filename) -/

/-- Go: the digit loop of `fmt`'s `fmtInteger` in base 10:
`for u >= 10 { next := u / 10; buf[i] = '0' + u - next*10; u = next }`, then
`buf[i] = '0' + u`. -/
def fmtUint (u : Nat) : GoString :=
  if h : u ≥ 10 then fmtUint (u / 10) ++ [48 + (u - u / 10 * 10)] else [48 + u]
termination_by u
decreasing_by omega

/-- Go: the verb `%d` on an `int64`: a minus sign for a negative value, then
the digits of its magnitude. -/
def fmtInt (a : Int) : GoString :=
  if a < 0 then 45 :: fmtUint a.natAbs else fmtUint a.natAbs

/-- Go: `storedName := fmt.Sprintf("%d_%s", ts, hdr.Filename)`. -/
def storedName (ts : Int) (filename : GoString) : GoString :=
  fmtInt ts ++ [95] ++ filename

/-- What the environment answers during one run of `uploadHandler`. -/
structure UploadEnv where
  /-- Go: `time.Now().UnixNano()`. -/
  now : Int
  /-- Go: `os.Create(dst)` returns an error. -/
  createFails : Bool
  /-- Go: `io.Copy(out, file)` returns an error after this many bytes were
  written (`none`: the copy completes). -/
  copyFails : Option Nat

/-- Go: `uploadHandler` (lines 35-66).  `form` is the result of
`r.FormFile("dicom")`: the declared filename and the payload, or an error. -/
def uploadHandler {V F I : Type} (lib : Lib V F I) (s : World) (method : String)
    (form : Option (GoString × GoString)) (env : UploadEnv) : World × ResponseWriter :=
  let w := newWriter
  if method ≠ "POST" then (s, httpError w "POST required" 405)
  else
    match form with
    | none => (s, httpError w "must include form-field ‘dicom’" 400)
    | some (filename, payload) =>
      let ts := env.now
      let name := storedName ts filename
      let dst := lib.Join name
      if env.createFails then (s, httpError w "cannot save file" 500)
      else
        -- os.Create: the file is created, or truncated when it exists
        let fs1 := Function.update s.fs dst (some [])
        match env.copyFails with
        | some n =>
          (⟨Function.update fs1 dst (some (payload.take n)), s.parsed⟩,
            httpError w "error writing file" 500)
        | none =>
          (⟨Function.update fs1 dst (some payload), s.parsed⟩,
            w.Write (lib.EncodeFile name))

/-- The writes `png.Encode` makes on `w`: nothing is written (and no header is
sent) when the encoder produced no byte. -/
def writeAll (w : ResponseWriter) (b : GoString) : ResponseWriter :=
  if b = [] then w else w.Write b

/-- Go: `imageHandler` (lines 102-135).  The handler has no `recover`: the
result is `none` when `dicom.ParseFile`, `dicom.MustGetPixelDataInfo` or
`GetImage` panics. -/
def imageHandler {V F I : Type} (lib : Lib V F I) (s : World)
    (fileName : GoString) : World × Option ResponseWriter :=
  let w := newWriter
  if fileName = [] then (s, some (httpError w "need ‘file’ query param" 400))
  else
    match ParseFile lib s (lib.Join fileName) with
    | (s1, Call.panic) => (s1, none)
    | (s1, Call.err) => (s1, some (httpError w "failed to parse DICOM" 500))
    | (s1, Call.ok ds) =>
      match FindElementByTag ds PixelData with
      | none => (s1, some (httpError w "no PixelData found" 404))
      | some pde =>
        match lib.Frames pde.Value with
        | none => (s1, none)
        | some [] => (s1, some (httpError w "no image frames present" 404))
        | some (frame0 :: _) =>
          match lib.GetImage frame0 with
          | Call.panic => (s1, none)
          | Call.err => (s1, some (httpError w "failed to get image" 500))
          | Call.ok img =>
            let r := lib.Encode img
            let w1 := writeAll w r.1
            if r.2 then (s1, some (httpError w1 "error encoding PNG" 500))
            else (s1, some w1)

end DicomGoServer

namespace WithFrontend

open DicomGoServer

/-! ## Handlers of `dicom-go-server-with-frontend/main.go` -/

/-- Go: `headerHandler` (lines 167-198); `strconv.ParseUint` is called inline
and the results are converted with `uint16(...)` at the lookup.  No `recover`:
the result is `none` when `dicom.ParseFile` panics. -/
def headerHandler {V F I : Type} (lib : Lib V F I) (s : World)
    (fileName tagStr : GoString) : World × Option ResponseWriter :=
  let w := newWriter
  if fileName = [] ∨ tagStr = [] then
    (s, some (httpError w "need both ‘file’ and ‘tag’ query params" 400))
  else if tagStr.length ≠ 8 then
    (s, some (httpError w "tag must be 8-hex chars (e.g. 00100010)" 400))
  else
    let r1 := ParseUint (tagStr.take 4) 16 16
    let r2 := ParseUint (tagStr.drop 4) 16 16
    if r1.2 ≠ none ∨ r2.2 ≠ none then
      (s, some (httpError w "invalid hex in tag" 400))
    else
      match ParseFile lib s (lib.Join fileName) with
      | (s1, Call.panic) => (s1, none)
      | (s1, Call.err) => (s1, some (httpError w "failed to parse DICOM" 500))
      | (s1, Call.ok ds) =>
        match FindElementByTag ds ⟨toUint16 r1.1, toUint16 r2.1⟩ with
        | none => (s1, some (httpError w "tag not found" 404))
        | some elem =>
          (s1, some (w.Write (lit "Tag " ++ tagStr ++ lit " → " ++ lib.Sprint elem.Value)))

/-- Go: `uploadHandler` (lines 136-165), line for line the one of the other
variant. -/
def uploadHandler {V F I : Type} (lib : Lib V F I) (s : World) (method : String)
    (form : Option (GoString × GoString)) (env : UploadEnv) : World × ResponseWriter :=
  let w := newWriter
  if method ≠ "POST" then (s, httpError w "POST required" 405)
  else
    match form with
    | none => (s, httpError w "must include form-field ‘dicom’" 400)
    | some (filename, payload) =>
      let ts := env.now
      let name := storedName ts filename
      let dst := lib.Join name
      if env.createFails then (s, httpError w "cannot save file" 500)
      else
        let fs1 := Function.update s.fs dst (some [])
        match env.copyFails with
        | some n =>
          (⟨Function.update fs1 dst (some (payload.take n)), s.parsed⟩,
            httpError w "error writing file" 500)
        | none =>
          (⟨Function.update fs1 dst (some payload), s.parsed⟩,
            w.Write (lib.EncodeFile name))

/-- Go: `imageHandler` (lines 200-231); the result of `png.Encode` is dropped.
No `recover`: the result is `none` when a library call panics. -/
def imageHandler {V F I : Type} (lib : Lib V F I) (s : World)
    (fileName : GoString) : World × Option ResponseWriter :=
  let w := newWriter
  if fileName = [] then (s, some (httpError w "need ‘file’ query param" 400))
  else
    match ParseFile lib s (lib.Join fileName) with
    | (s1, Call.panic) => (s1, none)
    | (s1, Call.err) => (s1, some (httpError w "failed to parse DICOM" 500))
    | (s1, Call.ok ds) =>
      match FindElementByTag ds PixelData with
      | none => (s1, some (httpError w "no PixelData found" 404))
      | some pde =>
        match lib.Frames pde.Value with
        | none => (s1, none)
        | some [] => (s1, some (httpError w "no image frames present" 404))
        | some (frame0 :: _) =>
          match lib.GetImage frame0 with
          | Call.panic => (s1, none)
          | Call.err => (s1, some (httpError w "failed to get image" 500))
          | Call.ok img =>
            let r := lib.Encode img
            (s1, some (writeAll w r.1))

end WithFrontend

namespace DicomGoServer

/-! ## Request sequences -/

/-- One request to the server, with what its handler reads from it. -/
inductive Request where
  | upload (method : String) (form : Option (GoString × GoString)) (env : UploadEnv)
  | header (fileName tagStr : GoString)
  | image (fileName : GoString)

/-- The routing of `main`: the state after the handler of one request. -/
def serve {V F I : Type} (lib : Lib V F I) (s : World) : Request → World
  | Request.upload m f e => (uploadHandler lib s m f e).1
  | Request.header f t => (headerHandler lib s f t).1
  | Request.image f => (imageHandler lib s f).1

/-- The state after a sequence of requests. -/
def serveAll {V F I : Type} (lib : Lib V F I) (s : World) (reqs : List Request) : World :=
  reqs.foldl (serve lib) s

end DicomGoServer

namespace WithFrontend

open DicomGoServer

/-- The routing of `main` in the front-end variant (the index page touches no
state and is left out). -/
def serve {V F I : Type} (lib : Lib V F I) (s : World) : Request → World
  | Request.upload m f e => (uploadHandler lib s m f e).1
  | Request.header f t => (headerHandler lib s f t).1
  | Request.image f => (imageHandler lib s f).1

/-- The state after a sequence of requests, front-end variant. -/
def serveAll {V F I : Type} (lib : Lib V F I) (s : World) (reqs : List Request) : World :=
  reqs.foldl (serve lib) s

end WithFrontend

namespace DicomGoServer

/-! ## Vocabulary of the specification -/

/-- Spec: a hexadecimal digit, one of 0-9, a-f, A-F. -/
def IsHexDigit (c : Nat) : Prop :=
  (48 ≤ c ∧ c ≤ 57) ∨ (97 ≤ c ∧ c ≤ 102) ∨ (65 ≤ c ∧ c ≤ 70)

instance : DecidablePred IsHexDigit := fun c => by
  unfold IsHexDigit; infer_instance

/-- Spec: the value of one hexadecimal digit. -/
def hexDigitValue (c : Nat) : Nat :=
  if c ≤ 57 then c - 48 else if c ≤ 70 then c - 55 else c - 87

/-- Spec: the base-16 value of a digit string, most significant digit first. -/
def base16Value (s : GoString) : Nat :=
  s.foldl (fun n c => n * 16 + hexDigitValue c) 0

/-- Spec: the number a decimal digit string denotes. -/
def decimalValue (cs : GoString) : Nat :=
  cs.foldl (fun n c => n * 10 + (c - 48)) 0

/-- Spec: a well-formed tag string, exactly 8 hexadecimal digits. -/
def WellFormedTag (t : GoString) : Prop :=
  t.length = 8 ∧ ∀ c ∈ t, IsHexDigit c

instance : DecidablePred WellFormedTag := fun t => by
  unfold WellFormedTag; infer_instance

/-- Spec: the TagAddress a well-formed tag string denotes. -/
def tagAddress (t : GoString) : Tag :=
  ⟨base16Value (t.take 4), base16Value (t.drop 4)⟩

/-- The dataset `dicom.ParseFile` yields for a path in a state. -/
def readDataset {V F I : Type} (lib : Lib V F I) (s : World) (path : GoString) :
    Call (Dataset V) :=
  (ParseFile lib s path).2

/-- The path an upload request creates or truncates, if it gets that far. -/
def Request.target {V F I : Type} (lib : Lib V F I) : Request → Option GoString
  | Request.upload _ (some (filename, _)) e => some (lib.Join (storedName e.now filename))
  | _ => none

/-- Lines 88-99 of `headerHandler` (186-197 in the front-end variant): parse
the stored file, look up the tag address `t`, render the value. -/
def resolveTag {V F I : Type} (lib : Lib V F I) (s : World)
    (fileName tagStr : GoString) (t : Tag) : World × Option ResponseWriter :=
  match ParseFile lib s (lib.Join fileName) with
  | (s1, Call.panic) => (s1, none)
  | (s1, Call.err) => (s1, some (httpError newWriter "failed to parse DICOM" 500))
  | (s1, Call.ok ds) =>
    match FindElementByTag ds t with
    | none => (s1, some (httpError newWriter "tag not found" 404))
    | some elem =>
      (s1, some (newWriter.Write (lit "Tag " ++ tagStr ++ lit " → " ++ lib.Sprint elem.Value)))

/-- Lines 125-134 of `imageHandler`: convert the frame to an image, encode it
as PNG onto the response, report an encoder error. -/
def frameResponse {V F I : Type} (lib : Lib V F I) (frame : F) : Option ResponseWriter :=
  match lib.GetImage frame with
  | Call.panic => none
  | Call.err => some (httpError newWriter "failed to get image" 500)
  | Call.ok img =>
    if (lib.Encode img).2 then
      some (httpError (writeAll newWriter (lib.Encode img).1) "error encoding PNG" 500)
    else some (writeAll newWriter (lib.Encode img).1)

/-- Lines 223-230 of the front-end `imageHandler`: convert the frame to an
image and encode it as PNG onto the response. -/
def frontendFrameResponse {V F I : Type} (lib : Lib V F I) (frame : F) :
    Option ResponseWriter :=
  match lib.GetImage frame with
  | Call.panic => none
  | Call.err => some (httpError newWriter "failed to get image" 500)
  | Call.ok img => some (writeAll newWriter (lib.Encode img).1)

/-! ## A small concrete library, for evaluating the handlers -/

/-- Values of the toy library: text, or pixel data with its frames. -/
inductive ToyValue where
  | text (s : GoString)
  | pixels (frames : List GoString)

/-- The toy parser: eight one-byte files are datasets, the file `[7]` makes
the parser panic (as a file whose Rows element has a text representation does
in the real library), everything else is rejected with an error. -/
def toyParse (b : GoString) : Call (Dataset ToyValue) :=
  if b = [1] then
    Call.ok [⟨⟨0x0010, 0x0010⟩, ToyValue.text (lit "Doe")⟩,
      ⟨PixelData, ToyValue.pixels [[7], [8, 9]]⟩]
  else if b = [2] then Call.ok [⟨PixelData, ToyValue.pixels []⟩]
  else if b = [3] then Call.ok [⟨PixelData, ToyValue.pixels [[]]⟩]
  else if b = [4] then Call.ok [⟨⟨0x0010, 0x0010⟩, ToyValue.text (lit "Doe")⟩]
  else if b = [5] then Call.ok [⟨PixelData, ToyValue.pixels [[0]]⟩]
  else if b = [6] then Call.ok [⟨PixelData, ToyValue.pixels [[7]]⟩]
  else if b = [7] then Call.panic
  else if b = [8] then Call.ok [⟨PixelData, ToyValue.pixels [[255]]⟩]
  else if b = [10] then Call.ok [⟨PixelData, ToyValue.text (lit "raw")⟩]
  else Call.err

/-- A toy instance of the collaborators.  Frames and images are byte strings;
the conversion of the empty frame returns an error and the conversion of the
frame `[255]` panics (as a frame parsed with zero samples per pixel does in
the real library); the encoder rejects the image `[0]` before it writes
anything. -/
def toyLib : Lib ToyValue GoString GoString :=
  ⟨fun name => lit "uploads/" ++ name,
   toyParse,
   fun v => match v with
     | ToyValue.text t => t
     | ToyValue.pixels _ => lit "PixelData",
   fun v => match v with
     | ToyValue.text _ => none
     | ToyValue.pixels fs => some fs,
   fun f => if f = [] then Call.err else if f = [255] then Call.panic else Call.ok f,
   fun img => if img = [0] then ([], true) else (img, false),
   fun name => [123, 34, 102, 105, 108, 101, 34, 58, 34] ++ name ++ [34, 125, 10]⟩

/-- The empty upload directory. -/
def emptyWorld : World := ⟨fun _ => none, []⟩

/-- The upload directory holding one file, "k", with the given bytes. -/
def toyWorld (b : GoString) : World :=
  ⟨fun p => if p = toyLib.Join (lit "k") then some b else none, []⟩

/-! ## Lemmas on `strconv.ParseUint` -/

theorem le_lower (c : Nat) : c ≤ lower c :=
  Nat.le_of_testBit (fun i h => by simp [lower, Nat.testBit_or, h])

theorem hex_table : ∀ c < 103, IsHexDigit c →
    digitVal c = some (hexDigitValue c) ∧ hexDigitValue c < 16 := by
  decide

theorem lower_table : ∀ c < 103, 97 ≤ lower c → lower c ≤ 102 → IsHexDigit c := by
  decide

theorem digitVal_of_isHexDigit {c : Nat} (h : IsHexDigit c) :
    digitVal c = some (hexDigitValue c) ∧ hexDigitValue c < 16 := by
  have hc : c < 103 := by unfold IsHexDigit at h; omega
  exact hex_table c hc h

theorem isHexDigit_of_digitVal {c d : Nat} (h : digitVal c = some d) (hd : d < 16) :
    IsHexDigit c := by
  unfold digitVal at h
  split at h
  · unfold IsHexDigit; omega
  · split at h
    · have h1 : lower c - 97 + 10 = d := by simpa using h
      have h2 := le_lower c
      exact lower_table c (by omega) (by omega) (by omega)
    · simp at h

theorem le_hexFold (cs : List Nat) (n : Nat) :
    n ≤ cs.foldl (fun n c => n * 16 + hexDigitValue c) n := by
  induction cs generalizing n with
  | nil => simp
  | cons c cs ih =>
    simp only [List.foldl_cons]
    exact le_trans (by omega) (ih (n * 16 + hexDigitValue c))

theorem hexFold_bound (cs : List Nat) (n : Nat) (h : ∀ c ∈ cs, IsHexDigit c) :
    cs.foldl (fun n c => n * 16 + hexDigitValue c) n + 1 ≤ (n + 1) * 16 ^ cs.length := by
  induction cs generalizing n with
  | nil => simp
  | cons c cs ih =>
    have hc := (digitVal_of_isHexDigit (h c (List.mem_cons_self c cs))).2
    have h1 := ih (n * 16 + hexDigitValue c) (fun x hx => h x (List.mem_cons_of_mem c hx))
    simp only [List.foldl_cons, List.length_cons]
    calc List.foldl (fun n c => n * 16 + hexDigitValue c) (n * 16 + hexDigitValue c) cs + 1
        ≤ (n * 16 + hexDigitValue c + 1) * 16 ^ cs.length := h1
      _ ≤ ((n + 1) * 16) * 16 ^ cs.length := Nat.mul_le_mul_right _ (by omega)
      _ = (n + 1) * 16 ^ (cs.length + 1) := by rw [pow_succ]; ring

theorem parseLoop_hex (maxVal cutoff : Nat) (hco : maxVal < cutoff)
    (hmv : maxVal * 16 + 15 < 2 ^ 64) (cs : List Nat) (n : Nat)
    (h : ∀ c ∈ cs, IsHexDigit c)
    (hb : cs.foldl (fun n c => n * 16 + hexDigitValue c) n ≤ maxVal) :
    parseLoop 16 maxVal cutoff cs n =
      (cs.foldl (fun n c => n * 16 + hexDigitValue c) n, none) := by
  induction cs generalizing n with
  | nil => simp [parseLoop]
  | cons c cs ih =>
    obtain ⟨hd, hlt⟩ := digitVal_of_isHexDigit (h c (List.mem_cons_self c cs))
    simp only [List.foldl_cons] at hb ⊢
    have h1 := le_hexFold cs (n * 16 + hexDigitValue c)
    have hn : n * 16 + hexDigitValue c ≤ maxVal := le_trans h1 hb
    have hm : n * 16 % 2 ^ 64 = n * 16 := Nat.mod_eq_of_lt (by omega)
    have hm1 : (n * 16 + hexDigitValue c) % 2 ^ 64 = n * 16 + hexDigitValue c :=
      Nat.mod_eq_of_lt (by omega)
    have hnc : ¬ n ≥ cutoff := by omega
    have hd16 : ¬ hexDigitValue c ≥ 16 := by omega
    have hov : ¬ (n * 16 + hexDigitValue c < n * 16 ∨ n * 16 + hexDigitValue c > maxVal) := by
      omega
    rw [parseLoop, hd]
    simp only [hd16, hnc, if_false, hm, hm1, hov]
    exact ih (n * 16 + hexDigitValue c) (fun x hx => h x (List.mem_cons_of_mem c hx)) hb

theorem parseLoop_ok (maxVal cutoff : Nat) (cs : List Nat) (n : Nat)
    (h : (parseLoop 16 maxVal cutoff cs n).2 = none) : ∀ c ∈ cs, IsHexDigit c := by
  induction cs generalizing n with
  | nil => simp
  | cons c cs ih =>
    rw [parseLoop] at h
    cases hd : digitVal c with
    | none => rw [hd] at h; simp at h
    | some d =>
      rw [hd] at h
      simp only at h
      split at h
      · simp at h
      · split at h
        · simp at h
        · split at h
          · simp at h
          · intro x hx
            rcases List.mem_cons.mp hx with rfl | hx
            · exact isHexDigit_of_digitVal hd (by omega)
            · exact ih _ h x hx

theorem ParseUint_hex4 (cs : GoString) (hl : cs.length = 4) (h : ∀ c ∈ cs, IsHexDigit c) :
    ParseUint cs 16 16 = (base16Value cs, none) ∧ base16Value cs < 65536 := by
  have hb : base16Value cs + 1 ≤ (0 + 1) * 16 ^ cs.length := hexFold_bound cs 0 h
  rw [hl] at hb
  have hb2 : base16Value cs < 65536 := by omega
  refine ⟨?_, hb2⟩
  have hne : cs ≠ [] := by intro h0; rw [h0] at hl; simp at hl
  have := parseLoop_hex (2 ^ 16 - 1) (maxUint64 / 16 + 1) (by simp [maxUint64])
    (by norm_num) cs 0 h (by unfold base16Value at hb2; omega)
  simp only [ParseUint, hne, if_false]
  simpa [base16Value] using this

theorem ParseUint_ok (cs : GoString) (h : (ParseUint cs 16 16).2 = none) :
    ∀ c ∈ cs, IsHexDigit c := by
  unfold ParseUint at h
  split at h
  · simp at h
  · simp only [] at h
    split at h
    · simp at h
    · split at h
      · simp at h
      · exact parseLoop_ok _ _ cs 0 h

/-! ## Lemmas on the handlers -/

theorem status_httpError (msg : String) (code : Nat) :
    (httpError newWriter msg code).StatusCode = code := rfl

theorem status_write (b : GoString) : (newWriter.Write b).StatusCode = 200 := rfl

theorem httpError_new (msg : String) (code : Nat) :
    httpError newWriter msg code = ⟨some code, lit msg ++ [10]⟩ := rfl

theorem parseFile_eq {V F I : Type} (lib : Lib V F I) (s : World) (path : GoString) :
    ParseFile lib s path = (⟨s.fs, s.parsed ++ [path]⟩, readDataset lib s path) := rfl

theorem readDataset_eq {V F I : Type} (lib : Lib V F I) (s : World) (path : GoString) :
    readDataset lib s path =
      match s.fs path with
      | none => Call.err
      | some b => lib.Parse b := rfl

theorem readDataset_missing {V F I : Type} (lib : Lib V F I) (s : World) (path : GoString)
    (h : s.fs path = none) : readDataset lib s path = Call.err := by
  rw [readDataset_eq, h]

theorem readDataset_file {V F I : Type} (lib : Lib V F I) (s : World) (path b : GoString)
    (h : s.fs path = some b) : readDataset lib s path = lib.Parse b := by
  rw [readDataset_eq, h]

theorem frontend_headerHandler_eq {V F I : Type} (lib : Lib V F I) (s : World)
    (fileName tagStr : GoString) :
    WithFrontend.headerHandler lib s fileName tagStr = headerHandler lib s fileName tagStr :=
  rfl

theorem frontend_uploadHandler_eq {V F I : Type} (lib : Lib V F I) (s : World)
    (method : String) (form : Option (GoString × GoString)) (env : UploadEnv) :
    WithFrontend.uploadHandler lib s method form env = uploadHandler lib s method form env :=
  rfl

theorem wellFormed_halves {t : GoString} (h : WellFormedTag t) :
    ((t.take 4).length = 4 ∧ ∀ c ∈ t.take 4, IsHexDigit c) ∧
    ((t.drop 4).length = 4 ∧ ∀ c ∈ t.drop 4, IsHexDigit c) := by
  obtain ⟨hl, hh⟩ := h
  refine ⟨⟨?_, fun c hc => hh c (List.mem_of_mem_take hc)⟩,
    ⟨?_, fun c hc => hh c (List.mem_of_mem_drop hc)⟩⟩
  · simp [List.length_take, hl]
  · simp [List.length_drop, hl]

theorem wellFormed_of_halves {t : GoString} (hl : t.length = 8)
    (h1 : ∀ c ∈ t.take 4, IsHexDigit c) (h2 : ∀ c ∈ t.drop 4, IsHexDigit c) :
    WellFormedTag t := by
  refine ⟨hl, fun c hc => ?_⟩
  rw [← List.take_append_drop 4 t] at hc
  rcases List.mem_append.mp hc with h | h
  · exact h1 c h
  · exact h2 c h

theorem headerHandler_wellFormed {V F I : Type} (lib : Lib V F I) (s : World)
    (fileName tagStr : GoString) (hf : fileName ≠ []) (ht : WellFormedTag tagStr) :
    headerHandler lib s fileName tagStr =
      resolveTag lib s fileName tagStr (tagAddress tagStr) := by
  obtain ⟨⟨l1, x1⟩, ⟨l2, x2⟩⟩ := wellFormed_halves ht
  obtain ⟨p1, b1⟩ := ParseUint_hex4 _ l1 x1
  obtain ⟨p2, b2⟩ := ParseUint_hex4 _ l2 x2
  have hne : tagStr ≠ [] := by
    intro h0; have := ht.1; rw [h0] at this; simp at this
  have u1 : toUint16 (base16Value (tagStr.take 4)) = base16Value (tagStr.take 4) :=
    Nat.mod_eq_of_lt (by norm_num; omega)
  have u2 : toUint16 (base16Value (tagStr.drop 4)) = base16Value (tagStr.drop 4) :=
    Nat.mod_eq_of_lt (by norm_num; omega)
  simp only [headerHandler, hf, hne, ht.1, parseHex, p1, p2, u1, u2, resolveTag, tagAddress]
  simp

theorem headerHandler_malformed {V F I : Type} (lib : Lib V F I) (s : World)
    (fileName tagStr : GoString) (h : fileName = [] ∨ ¬ WellFormedTag tagStr) :
    (headerHandler lib s fileName tagStr).1 = s ∧
      statusOf (headerHandler lib s fileName tagStr).2 = some 400 := by
  unfold headerHandler
  simp only []
  split
  · exact ⟨rfl, rfl⟩
  · split
    · exact ⟨rfl, rfl⟩
    · split
      · exact ⟨rfl, rfl⟩
      · rename_i h1 h2 h3
        exfalso
        have hf : fileName ≠ [] := fun h0 => h1 (Or.inl h0)
        have hl : tagStr.length = 8 := by simpa using h2
        have e1 : (ParseUint (tagStr.take 4) 16 16).2 = none := by
          by_contra hc; exact h3 (Or.inl (by simpa [parseHex] using hc))
        have e2 : (ParseUint (tagStr.drop 4) 16 16).2 = none := by
          by_contra hc; exact h3 (Or.inr (by simpa [parseHex] using hc))
        rcases h with h | h
        · exact hf h
        · exact h (wellFormed_of_halves hl (ParseUint_ok _ e1) (ParseUint_ok _ e2))

theorem resolveTag_response {V F I : Type} (lib : Lib V F I) (s : World)
    (fileName tagStr : GoString) (t : Tag) :
    (resolveTag lib s fileName tagStr t).2 =
      match readDataset lib s (lib.Join fileName) with
      | Call.panic => none
      | Call.err => some ⟨some 500, lit "failed to parse DICOM" ++ [10]⟩
      | Call.ok ds =>
        match FindElementByTag ds t with
        | none => some ⟨some 404, lit "tag not found" ++ [10]⟩
        | some elem =>
          some ⟨some 200, lit "Tag " ++ tagStr ++ lit " → " ++ lib.Sprint elem.Value⟩ := by
  unfold resolveTag
  simp only [parseFile_eq]
  cases readDataset lib s (lib.Join fileName) with
  | panic => rfl
  | err => rfl
  | ok ds =>
    simp only []
    cases FindElementByTag ds t <;> rfl

theorem resolveTag_status {V F I : Type} (lib : Lib V F I) (s : World)
    (fileName tagStr : GoString) (t : Tag) :
    statusOf (resolveTag lib s fileName tagStr t).2 ≠ some 400 := by
  rw [resolveTag_response]
  cases readDataset lib s (lib.Join fileName) with
  | panic => simp [statusOf]
  | err => simp [statusOf, ResponseWriter.StatusCode]
  | ok ds =>
    simp only []
    cases FindElementByTag ds t <;> simp [statusOf, ResponseWriter.StatusCode]

theorem headerHandler_response {V F I : Type} (lib : Lib V F I) (s : World)
    (fileName tagStr : GoString) (hf : fileName ≠ []) (ht : WellFormedTag tagStr) :
    (headerHandler lib s fileName tagStr).2 =
      match readDataset lib s (lib.Join fileName) with
      | Call.panic => none
      | Call.err => some ⟨some 500, lit "failed to parse DICOM" ++ [10]⟩
      | Call.ok ds =>
        match FindElementByTag ds (tagAddress tagStr) with
        | none => some ⟨some 404, lit "tag not found" ++ [10]⟩
        | some elem =>
          some ⟨some 200, lit "Tag " ++ tagStr ++ lit " → " ++ lib.Sprint elem.Value⟩ := by
  rw [headerHandler_wellFormed lib s fileName tagStr hf ht, resolveTag_response]

/-! ## Lemmas on the storage key -/

theorem fmtUint_digits (u : Nat) : ∀ c ∈ fmtUint u, 48 ≤ c ∧ c ≤ 57 := by
  induction u using Nat.strong_induction_on with
  | _ u ih =>
    intro c hc
    rw [fmtUint] at hc
    split at hc
    · rcases List.mem_append.mp hc with h | h
      · exact ih (u / 10) (by omega) c h
      · have : c = 48 + (u - u / 10 * 10) := by simpa using h
        omega
    · have : c = 48 + u := by simpa using hc
      omega

theorem fmtUint_ne_nil (u : Nat) : fmtUint u ≠ [] := by
  rw [fmtUint]
  split <;> simp

theorem decimalValue_fmtUint (u : Nat) : decimalValue (fmtUint u) = u := by
  induction u using Nat.strong_induction_on with
  | _ u ih =>
    rw [fmtUint]
    split
    · have h1 := ih (u / 10) (by omega)
      unfold decimalValue at h1 ⊢
      rw [List.foldl_append, h1]
      simp only [List.foldl_cons, List.foldl_nil]
      omega
    · simp [decimalValue]

theorem fmtUint_injective {u v : Nat} (h : fmtUint u = fmtUint v) : u = v := by
  rw [← decimalValue_fmtUint u, ← decimalValue_fmtUint v, h]

theorem fmtUint_head (u : Nat) (t : GoString) : fmtUint u ≠ 45 :: t := by
  intro h
  have := fmtUint_digits u 45 (by rw [h]; exact List.mem_cons_self 45 t)
  omega

theorem fmtInt_injective {a b : Int} (h : fmtInt a = fmtInt b) : a = b := by
  unfold fmtInt at h
  split at h <;> split at h
  · have := fmtUint_injective (List.cons.inj h).2
    omega
  · exact absurd h.symm (fmtUint_head _ _)
  · exact absurd h (fmtUint_head _ _)
  · have := fmtUint_injective h
    omega

theorem fmtInt_no_underscore (a : Int) : 95 ∉ fmtInt a := by
  intro h
  unfold fmtInt at h
  split at h
  · rcases List.mem_cons.mp h with h | h
    · omega
    · have := fmtUint_digits _ 95 h; omega
  · have := fmtUint_digits _ 95 h; omega

theorem split_at_separator {α : Type} (sep : α) :
    ∀ (a b x y : List α), sep ∉ a → sep ∉ b → a ++ sep :: x = b ++ sep :: y →
      a = b ∧ x = y
  | [], [], x, y, _, _, h => ⟨rfl, by simpa using h⟩
  | [], c :: b, x, y, _, hb, h => by
    simp only [List.nil_append, List.cons_append, List.cons.injEq] at h
    exact absurd (h.1 ▸ List.mem_cons_self c b) hb
  | c :: a, [], x, y, ha, _, h => by
    simp only [List.nil_append, List.cons_append, List.cons.injEq] at h
    exact absurd (h.1 ▸ List.mem_cons_self c a) ha
  | c :: a, d :: b, x, y, ha, hb, h => by
    simp only [List.cons_append, List.cons.injEq] at h
    obtain ⟨h1, h2⟩ := split_at_separator sep a b x y
      (fun hm => ha (List.mem_cons_of_mem c hm)) (fun hm => hb (List.mem_cons_of_mem d hm)) h.2
    exact ⟨by rw [h.1, h1], h2⟩

theorem storedName_injective {t1 t2 : Int} {f1 f2 : GoString}
    (h : storedName t1 f1 = storedName t2 f2) : t1 = t2 ∧ f1 = f2 := by
  unfold storedName at h
  simp only [List.append_assoc, List.singleton_append] at h
  obtain ⟨h1, h2⟩ := split_at_separator 95 _ _ _ _ (fmtInt_no_underscore t1)
    (fmtInt_no_underscore t2) h
  exact ⟨fmtInt_injective h1, h2⟩

/-! ## Lemmas on upload -/

theorem uploadHandler_success {V F I : Type} (lib : Lib V F I) (s : World) (method : String)
    (filename payload : GoString) (env : UploadEnv)
    (hok : (uploadHandler lib s method (some (filename, payload)) env).2.StatusCode = 200) :
    (uploadHandler lib s method (some (filename, payload)) env).2 =
        newWriter.Write (lib.EncodeFile (storedName env.now filename)) ∧
      (uploadHandler lib s method (some (filename, payload)) env).1.fs
        (lib.Join (storedName env.now filename)) = some payload := by
  unfold uploadHandler at hok ⊢
  simp only [] at hok ⊢
  split at hok
  · simp [status_httpError] at hok
  · split at hok
    · simp [status_httpError] at hok
    · rename_i hm hc
      cases he : env.copyFails with
      | some n => rw [he] at hok; simp [status_httpError] at hok
      | none => simp [hm, hc]

/-! ## Lemmas on `imageHandler` -/

theorem frameResponse_eq {V F I : Type} (lib : Lib V F I) (frame : F) :
    frameResponse lib frame =
      match lib.GetImage frame with
      | Call.panic => none
      | Call.err => some ⟨some 500, lit "failed to get image" ++ [10]⟩
      | Call.ok img =>
        match lib.Encode img with
        | (bytes, false) => if bytes = [] then some ⟨none, []⟩ else some ⟨some 200, bytes⟩
        | (bytes, true) =>
          if bytes = [] then some ⟨some 500, lit "error encoding PNG" ++ [10]⟩
          else some ⟨some 200, bytes ++ (lit "error encoding PNG" ++ [10])⟩ := by
  unfold frameResponse
  cases lib.GetImage frame with
  | panic => rfl
  | err => rfl
  | ok img =>
    simp only []
    obtain ⟨bytes, e⟩ := lib.Encode img
    cases e <;> by_cases hb : bytes = [] <;>
      simp [writeAll, hb, httpError, newWriter, ResponseWriter.Write,
        ResponseWriter.WriteHeader]

theorem frontendFrameResponse_eq {V F I : Type} (lib : Lib V F I) (frame : F) :
    frontendFrameResponse lib frame =
      match lib.GetImage frame with
      | Call.panic => none
      | Call.err => some ⟨some 500, lit "failed to get image" ++ [10]⟩
      | Call.ok img =>
        if (lib.Encode img).1 = [] then some ⟨none, []⟩
        else some ⟨some 200, (lib.Encode img).1⟩ := by
  unfold frontendFrameResponse
  cases lib.GetImage frame with
  | panic => rfl
  | err => rfl
  | ok img =>
    simp only []
    by_cases hb : (lib.Encode img).1 = [] <;>
      simp [writeAll, hb, newWriter, ResponseWriter.Write]

theorem imageHandler_response {V F I : Type} (lib : Lib V F I) (s : World)
    (fileName : GoString) (hf : fileName ≠ []) :
    (imageHandler lib s fileName).2 =
      match readDataset lib s (lib.Join fileName) with
      | Call.panic => none
      | Call.err => some ⟨some 500, lit "failed to parse DICOM" ++ [10]⟩
      | Call.ok ds =>
        match FindElementByTag ds PixelData with
        | none => some ⟨some 404, lit "no PixelData found" ++ [10]⟩
        | some pde =>
          match lib.Frames pde.Value with
          | none => none
          | some [] => some ⟨some 404, lit "no image frames present" ++ [10]⟩
          | some (frame0 :: _) => frameResponse lib frame0 := by
  unfold imageHandler
  simp only [hf, if_false, parseFile_eq]
  cases readDataset lib s (lib.Join fileName) with
  | panic => rfl
  | err => rfl
  | ok ds =>
    simp only []
    cases FindElementByTag ds PixelData with
    | none => rfl
    | some pde =>
      simp only []
      cases hfr : lib.Frames pde.Value with
      | none => rfl
      | some frames =>
        cases frames with
        | nil => rfl
        | cons f rest =>
          simp only [frameResponse]
          cases lib.GetImage f with
          | panic => rfl
          | err => rfl
          | ok img =>
            simp only []
            cases (lib.Encode img).2 <;> simp

theorem frontend_imageHandler_response {V F I : Type} (lib : Lib V F I) (s : World)
    (fileName : GoString) (hf : fileName ≠ []) :
    (WithFrontend.imageHandler lib s fileName).2 =
      match readDataset lib s (lib.Join fileName) with
      | Call.panic => none
      | Call.err => some ⟨some 500, lit "failed to parse DICOM" ++ [10]⟩
      | Call.ok ds =>
        match FindElementByTag ds PixelData with
        | none => some ⟨some 404, lit "no PixelData found" ++ [10]⟩
        | some pde =>
          match lib.Frames pde.Value with
          | none => none
          | some [] => some ⟨some 404, lit "no image frames present" ++ [10]⟩
          | some (frame0 :: _) => frontendFrameResponse lib frame0 := by
  unfold WithFrontend.imageHandler
  simp only [hf, if_false, parseFile_eq]
  cases readDataset lib s (lib.Join fileName) with
  | panic => rfl
  | err => rfl
  | ok ds =>
    simp only []
    cases FindElementByTag ds PixelData with
    | none => rfl
    | some pde =>
      simp only []
      cases hfr : lib.Frames pde.Value with
      | none => rfl
      | some frames =>
        cases frames with
        | nil => rfl
        | cons f rest =>
          simp only [frontendFrameResponse]
          cases lib.GetImage f with
          | panic => rfl
          | err => rfl
          | ok img => rfl

/-! ## Lemmas on the files on disk -/

theorem headerHandler_fs {V F I : Type} (lib : Lib V F I) (s : World)
    (fileName tagStr : GoString) : (headerHandler lib s fileName tagStr).1.fs = s.fs := by
  unfold headerHandler
  simp only [parseFile_eq]
  split
  · rfl
  · split
    · rfl
    · split
      · rfl
      · cases readDataset lib s (lib.Join fileName) with
        | panic => rfl
        | err => rfl
        | ok ds =>
          simp only []
          cases FindElementByTag ds
            ⟨(parseHex (List.take 4 tagStr)).1, (parseHex (List.drop 4 tagStr)).1⟩ <;> rfl

theorem imageHandler_fs {V F I : Type} (lib : Lib V F I) (s : World)
    (fileName : GoString) : (imageHandler lib s fileName).1.fs = s.fs := by
  unfold imageHandler
  simp only [parseFile_eq]
  split
  · rfl
  · cases readDataset lib s (lib.Join fileName) with
    | panic => rfl
    | err => rfl
    | ok ds =>
      simp only []
      cases FindElementByTag ds PixelData with
      | none => rfl
      | some pde =>
        simp only []
        cases lib.Frames pde.Value with
        | none => rfl
        | some frames =>
          cases frames with
          | nil => rfl
          | cons f rest =>
            simp only []
            cases lib.GetImage f with
            | panic => rfl
            | err => rfl
            | ok img =>
              simp only []
              split <;> rfl

theorem frontend_imageHandler_fs {V F I : Type} (lib : Lib V F I) (s : World)
    (fileName : GoString) : (WithFrontend.imageHandler lib s fileName).1.fs = s.fs := by
  unfold WithFrontend.imageHandler
  simp only [parseFile_eq]
  split
  · rfl
  · cases readDataset lib s (lib.Join fileName) with
    | panic => rfl
    | err => rfl
    | ok ds =>
      simp only []
      cases FindElementByTag ds PixelData with
      | none => rfl
      | some pde =>
        simp only []
        cases lib.Frames pde.Value with
        | none => rfl
        | some frames =>
          cases frames with
          | nil => rfl
          | cons f rest =>
            simp only []
            cases lib.GetImage f <;> rfl

theorem uploadHandler_fs {V F I : Type} (lib : Lib V F I) (s : World) (method : String)
    (form : Option (GoString × GoString)) (env : UploadEnv) (p : GoString)
    (h : (Request.upload method form env).target lib ≠ some p) :
    (uploadHandler lib s method form env).1.fs p = s.fs p := by
  unfold uploadHandler
  simp only []
  split
  · rfl
  · cases form with
    | none => rfl
    | some fp =>
      obtain ⟨filename, payload⟩ := fp
      have hp : p ≠ lib.Join (storedName env.now filename) := by
        intro h0
        exact h (by simp [Request.target, h0])
      simp only []
      split
      · rfl
      · cases env.copyFails with
        | none => simp [Function.update_noteq hp]
        | some n => simp [Function.update_noteq hp]

theorem serve_fs {V F I : Type} (lib : Lib V F I) (s : World) (r : Request) (p : GoString)
    (h : r.target lib ≠ some p) : (serve lib s r).fs p = s.fs p := by
  cases r with
  | upload m f e => exact uploadHandler_fs lib s m f e p h
  | header f t => simp only [serve]; rw [headerHandler_fs]
  | image f => simp only [serve]; rw [imageHandler_fs]

theorem frontend_serve_fs {V F I : Type} (lib : Lib V F I) (s : World) (r : Request)
    (p : GoString) (h : r.target lib ≠ some p) : (WithFrontend.serve lib s r).fs p = s.fs p := by
  cases r with
  | upload m f e => exact uploadHandler_fs lib s m f e p h
  | header f t =>
    simp only [WithFrontend.serve]; rw [frontend_headerHandler_eq, headerHandler_fs]
  | image f => simp only [WithFrontend.serve]; rw [frontend_imageHandler_fs]

theorem serveAll_fs {V F I : Type} (lib : Lib V F I) (reqs : List Request) (s : World)
    (p : GoString) (h : ∀ r ∈ reqs, r.target lib ≠ some p) :
    (serveAll lib s reqs).fs p = s.fs p := by
  induction reqs generalizing s with
  | nil => rfl
  | cons r rs ih =>
    simp only [serveAll, List.foldl_cons]
    have := ih (serve lib s r) (fun x hx => h x (List.mem_cons_of_mem r hx))
    simp only [serveAll] at this
    rw [this, serve_fs lib s r p (h r (List.mem_cons_self r rs))]

theorem frontend_serveAll_fs {V F I : Type} (lib : Lib V F I) (reqs : List Request)
    (s : World) (p : GoString) (h : ∀ r ∈ reqs, r.target lib ≠ some p) :
    (WithFrontend.serveAll lib s reqs).fs p = s.fs p := by
  induction reqs generalizing s with
  | nil => rfl
  | cons r rs ih =>
    simp only [WithFrontend.serveAll, List.foldl_cons]
    have := ih (WithFrontend.serve lib s r) (fun x hx => h x (List.mem_cons_of_mem r hx))
    simp only [WithFrontend.serveAll] at this
    rw [this, frontend_serve_fs lib s r p (h r (List.mem_cons_self r rs))]

/-- The files change only at the path of an upload: `headerHandler` and
`imageHandler` leave every file unchanged, `uploadHandler` changes no file
other than the one at the path of the key it builds, so through a sequence of
requests the bytes at a path stay as long as no upload builds a key with that
path.  Both variants. -/
theorem files_change_only_at_upload_target {V F I : Type} (lib : Lib V F I)
    (s : World) (reqs : List Request) (p : GoString)
    (h : ∀ r ∈ reqs, r.target lib ≠ some p) :
    (serveAll lib s reqs).fs p = s.fs p ∧
    (WithFrontend.serveAll lib s reqs).fs p = s.fs p ∧
    (∀ fileName tagStr, (headerHandler lib s fileName tagStr).1.fs = s.fs ∧
      (WithFrontend.headerHandler lib s fileName tagStr).1.fs = s.fs) ∧
    (∀ fileName, (imageHandler lib s fileName).1.fs = s.fs ∧
      (WithFrontend.imageHandler lib s fileName).1.fs = s.fs) ∧
    (∀ method form env q, (Request.upload method form env).target lib ≠ some q →
      (uploadHandler lib s method form env).1.fs q = s.fs q ∧
      (WithFrontend.uploadHandler lib s method form env).1.fs q = s.fs q) :=
  ⟨serveAll_fs lib reqs s p h, frontend_serveAll_fs lib reqs s p h,
    fun f t => ⟨headerHandler_fs lib s f t, headerHandler_fs lib s f t⟩,
    fun f => ⟨imageHandler_fs lib s f, frontend_imageHandler_fs lib s f⟩,
    fun m form env q hq =>
      ⟨uploadHandler_fs lib s m form env q hq, uploadHandler_fs lib s m form env q hq⟩⟩

/-! ## Sample evaluations -/

theorem lit_samples :
    lit "Tag " = [84, 97, 103, 32] ∧ lit " → " = [32, 0xE2, 0x86, 0x92, 32] ∧
    lit "need ‘file’ query param" =
      [110, 101, 101, 100, 32, 226, 128, 152, 102, 105, 108, 101, 226, 128, 153, 32, 113,
        117, 101, 114, 121, 32, 112, 97, 114, 97, 109] := by
  decide

theorem parseHex_samples :
    parseHex (lit "0010") = (16, none) ∧
    parseHex (lit "7fE0") = (0x7FE0, none) ∧
    (parseHex (lit "GGGG")).2 = some NumError.ErrSyntax ∧
    (parseHex (lit "+123")).2 = some NumError.ErrSyntax ∧
    (parseHex (lit "0x12")).2 = some NumError.ErrSyntax ∧
    (parseHex (lit "1_23")).2 = some NumError.ErrSyntax ∧
    (parseHex (lit "12")).2 = none ∧
    ParseUint (lit "10000") 16 16 = (65535, some NumError.ErrRange) ∧
    tagAddress (lit "7fE00010") = PixelData := by
  decide

theorem fmtInt_samples :
    fmtInt 1730000000000000000 = lit "1730000000000000000" ∧
    fmtInt (-12) = lit "-12" ∧ fmtInt 0 = lit "0" ∧
    storedName 42 (lit "scan.dcm") = lit "42_scan.dcm" := by
  simp [storedName, fmtInt, fmtUint, lit, utf8EncodeRune]

/-! ## The claims -/

/-- C1 (validation before parse): when `file` or `tag` is empty, or `tag` is
not 8 bytes long (Go's `len`; a string with a multi-byte character is never 8
hexadecimal digits), or one of its two 4-byte halves is not made of
hexadecimal digits, `headerHandler` answers 400 and hands nothing to
`dicom.ParseFile` (the log of parsed paths and the files are as before), in
both variants. -/
theorem C1_validation_before_parse {V F I : Type} (lib : Lib V F I) (s : World)
    (fileName tagStr : GoString)
    (h : fileName = [] ∨ tagStr = [] ∨ tagStr.length ≠ 8 ∨
      (¬ ∀ c ∈ tagStr.take 4, IsHexDigit c) ∨ (¬ ∀ c ∈ tagStr.drop 4, IsHexDigit c)) :
    (statusOf (headerHandler lib s fileName tagStr).2 = some 400 ∧
      (headerHandler lib s fileName tagStr).1.parsed = s.parsed ∧
      (headerHandler lib s fileName tagStr).1.fs = s.fs) ∧
    (statusOf (WithFrontend.headerHandler lib s fileName tagStr).2 = some 400 ∧
      (WithFrontend.headerHandler lib s fileName tagStr).1.parsed = s.parsed ∧
      (WithFrontend.headerHandler lib s fileName tagStr).1.fs = s.fs) := by
  have hm : fileName = [] ∨ ¬ WellFormedTag tagStr := by
    rcases h with h | h | h | h | h
    · exact Or.inl h
    · exact Or.inr (fun hw => by have := hw.1; rw [h] at this; simp at this)
    · exact Or.inr (fun hw => h hw.1)
    · exact Or.inr (fun hw => h (wellFormed_halves hw).1.2)
    · exact Or.inr (fun hw => h (wellFormed_halves hw).2.2)
  obtain ⟨h1, h2⟩ := headerHandler_malformed lib s fileName tagStr hm
  rw [frontend_headerHandler_eq]
  exact ⟨⟨h2, by rw [h1], by rw [h1]⟩, ⟨h2, by rw [h1], by rw [h1]⟩⟩

/-- Witness of C1: the tag "GGGGGGGG" on the toy library. -/
theorem C1_validation_before_parse_witness :
    (lit "x" = [] ∨ lit "GGGGGGGG" = [] ∨ (lit "GGGGGGGG").length ≠ 8 ∨
      (¬ ∀ c ∈ (lit "GGGGGGGG").take 4, IsHexDigit c) ∨
      (¬ ∀ c ∈ (lit "GGGGGGGG").drop 4, IsHexDigit c)) ∧
    ((statusOf (headerHandler toyLib emptyWorld (lit "x") (lit "GGGGGGGG")).2 = some 400 ∧
      (headerHandler toyLib emptyWorld (lit "x") (lit "GGGGGGGG")).1.parsed
        = emptyWorld.parsed ∧
      (headerHandler toyLib emptyWorld (lit "x") (lit "GGGGGGGG")).1.fs = emptyWorld.fs) ∧
    (statusOf (WithFrontend.headerHandler toyLib emptyWorld (lit "x") (lit "GGGGGGGG")).2
        = some 400 ∧
      (WithFrontend.headerHandler toyLib emptyWorld (lit "x") (lit "GGGGGGGG")).1.parsed
        = emptyWorld.parsed ∧
      (WithFrontend.headerHandler toyLib emptyWorld (lit "x") (lit "GGGGGGGG")).1.fs
        = emptyWorld.fs)) :=
  ⟨by decide, C1_validation_before_parse toyLib emptyWorld (lit "x") (lit "GGGGGGGG")
    (by decide)⟩

/-- C2 (tag parsing): for a non-empty `file`, a tag string of exactly 8
hexadecimal digits passes validation in both variants (no 400), each half
parses without error to its base-16 value, which is below 65536 and is not
changed by the `uint16` conversion, and the handler looks up exactly the tag
(group, element) made of these two values; conversely a request that is not
answered 400 has a tag string of exactly 8 hexadecimal digits. -/
theorem C2_tag_parsing {V F I : Type} (lib : Lib V F I) (s : World)
    (fileName tagStr : GoString) (hf : fileName ≠ []) :
    (WellFormedTag tagStr →
      statusOf (headerHandler lib s fileName tagStr).2 ≠ some 400 ∧
      statusOf (WithFrontend.headerHandler lib s fileName tagStr).2 ≠ some 400 ∧
      parseHex (tagStr.take 4) = (base16Value (tagStr.take 4), none) ∧
      parseHex (tagStr.drop 4) = (base16Value (tagStr.drop 4), none) ∧
      ParseUint (tagStr.take 4) 16 16 = (base16Value (tagStr.take 4), none) ∧
      ParseUint (tagStr.drop 4) 16 16 = (base16Value (tagStr.drop 4), none) ∧
      base16Value (tagStr.take 4) < 65536 ∧
      base16Value (tagStr.drop 4) < 65536 ∧
      toUint16 (base16Value (tagStr.take 4)) = base16Value (tagStr.take 4) ∧
      toUint16 (base16Value (tagStr.drop 4)) = base16Value (tagStr.drop 4) ∧
      headerHandler lib s fileName tagStr =
        resolveTag lib s fileName tagStr
          ⟨base16Value (tagStr.take 4), base16Value (tagStr.drop 4)⟩ ∧
      WithFrontend.headerHandler lib s fileName tagStr =
        resolveTag lib s fileName tagStr
          ⟨base16Value (tagStr.take 4), base16Value (tagStr.drop 4)⟩) ∧
    (statusOf (headerHandler lib s fileName tagStr).2 ≠ some 400 → WellFormedTag tagStr) ∧
    (statusOf (WithFrontend.headerHandler lib s fileName tagStr).2 ≠ some 400 →
      WellFormedTag tagStr) := by
  rw [frontend_headerHandler_eq]
  refine ⟨fun ht => ?_, ?_, ?_⟩
  · obtain ⟨⟨l1, x1⟩, ⟨l2, x2⟩⟩ := wellFormed_halves ht
    obtain ⟨p1, b1⟩ := ParseUint_hex4 _ l1 x1
    obtain ⟨p2, b2⟩ := ParseUint_hex4 _ l2 x2
    have u1 : toUint16 (base16Value (tagStr.take 4)) = base16Value (tagStr.take 4) :=
      Nat.mod_eq_of_lt (by norm_num; omega)
    have u2 : toUint16 (base16Value (tagStr.drop 4)) = base16Value (tagStr.drop 4) :=
      Nat.mod_eq_of_lt (by norm_num; omega)
    have hh := headerHandler_wellFormed lib s fileName tagStr hf ht
    have hs : statusOf (headerHandler lib s fileName tagStr).2 ≠ some 400 := by
      rw [hh]; exact resolveTag_status lib s fileName tagStr _
    refine ⟨hs, hs, ?_, ?_, p1, p2, b1, b2, u1, u2, hh, hh⟩
    · simp [parseHex, p1, u1]
    · simp [parseHex, p2, u2]
  · intro hs
    by_contra hw
    exact hs (headerHandler_malformed lib s fileName tagStr (Or.inr hw)).2
  · intro hs
    by_contra hw
    exact hs (headerHandler_malformed lib s fileName tagStr (Or.inr hw)).2

/-- Witness of C2: the file name "x" on the toy library. -/
theorem C2_tag_parsing_witness :
    lit "x" ≠ [] ∧ WellFormedTag (lit "7fE00010") ∧
    ((WellFormedTag (lit "7fE00010") →
      statusOf (headerHandler toyLib emptyWorld (lit "x") (lit "7fE00010")).2 ≠ some 400 ∧
      statusOf (WithFrontend.headerHandler toyLib emptyWorld (lit "x")
        (lit "7fE00010")).2 ≠ some 400 ∧
      parseHex ((lit "7fE00010").take 4) = (base16Value ((lit "7fE00010").take 4), none) ∧
      parseHex ((lit "7fE00010").drop 4) = (base16Value ((lit "7fE00010").drop 4), none) ∧
      ParseUint ((lit "7fE00010").take 4) 16 16
        = (base16Value ((lit "7fE00010").take 4), none) ∧
      ParseUint ((lit "7fE00010").drop 4) 16 16
        = (base16Value ((lit "7fE00010").drop 4), none) ∧
      base16Value ((lit "7fE00010").take 4) < 65536 ∧
      base16Value ((lit "7fE00010").drop 4) < 65536 ∧
      toUint16 (base16Value ((lit "7fE00010").take 4))
        = base16Value ((lit "7fE00010").take 4) ∧
      toUint16 (base16Value ((lit "7fE00010").drop 4))
        = base16Value ((lit "7fE00010").drop 4) ∧
      headerHandler toyLib emptyWorld (lit "x") (lit "7fE00010") =
        resolveTag toyLib emptyWorld (lit "x") (lit "7fE00010")
          ⟨base16Value ((lit "7fE00010").take 4), base16Value ((lit "7fE00010").drop 4)⟩ ∧
      WithFrontend.headerHandler toyLib emptyWorld (lit "x") (lit "7fE00010") =
        resolveTag toyLib emptyWorld (lit "x") (lit "7fE00010")
          ⟨base16Value ((lit "7fE00010").take 4), base16Value ((lit "7fE00010").drop 4)⟩) ∧
    (statusOf (headerHandler toyLib emptyWorld (lit "x") (lit "7fE00010")).2 ≠ some 400 →
      WellFormedTag (lit "7fE00010")) ∧
    (statusOf (WithFrontend.headerHandler toyLib emptyWorld (lit "x")
        (lit "7fE00010")).2 ≠ some 400 →
      WellFormedTag (lit "7fE00010"))) :=
  ⟨by decide, by decide,
    C2_tag_parsing toyLib emptyWorld (lit "x") (lit "7fE00010") (by decide)⟩

/-- C3 (uniqueness of storage keys): the key `fmt.Sprintf("%d_%s", ts, filename)`
is injective in the pair (timestamp, filename), for every integer timestamp
(so for every `int64`) and every filename, also one that contains digits and
underscores: equal keys come from equal pairs, different pairs give different
keys; hence a sequence of intakes with pairwise distinct (timestamp, filename)
pairs yields pairwise distinct keys. -/
theorem C3_storage_key_unique (t1 t2 : Int) (f1 f2 : GoString)
    (intakes : List (Int × GoString)) :
    (storedName t1 f1 = storedName t2 f2 → t1 = t2 ∧ f1 = f2) ∧
    ((t1, f1) ≠ (t2, f2) → storedName t1 f1 ≠ storedName t2 f2) ∧
    (intakes.Pairwise (fun p q => p ≠ q) →
      (intakes.map (fun p => storedName p.1 p.2)).Pairwise (fun k1 k2 => k1 ≠ k2)) := by
  refine ⟨storedName_injective, ?_, ?_⟩
  · intro hne h
    obtain ⟨h1, h2⟩ := storedName_injective h
    exact hne (by rw [h1, h2])
  · intro hd
    rw [List.pairwise_map]
    refine hd.imp ?_
    intro p q hpq h
    obtain ⟨h1, h2⟩ := storedName_injective h
    exact hpq (Prod.ext h1 h2)

/-- Witness of C3: filenames that themselves start with digits and an
underscore, at the same timestamp, and a three-intake sequence. -/
theorem C3_storage_key_unique_witness :
    ((1 : Int), lit "2_a") ≠ ((1 : Int), lit "2_b") ∧
    [((1 : Int), lit "2_a"), (12, lit "a"), (1, lit "2_b")].Pairwise (fun p q => p ≠ q) ∧
    storedName 1 (lit "2_a") ≠ storedName 1 (lit "2_b") ∧
    ([((1 : Int), lit "2_a"), (12, lit "a"), (1, lit "2_b")].map
      (fun p => storedName p.1 p.2)).Pairwise (fun k1 k2 => k1 ≠ k2) :=
  ⟨by decide, by decide,
    (C3_storage_key_unique 1 1 (lit "2_a") (lit "2_b") []).2.1 (by decide),
    (C3_storage_key_unique 0 0 [] []
      [((1 : Int), lit "2_a"), (12, lit "a"), (1, lit "2_b")]).2.2 (by decide)⟩

/-- C4 (round trip): when `uploadHandler` stores payload `B` under filename
`filename` successfully (status 200), its response carries the key
`K = <timestamp>_<filename>`; and for a well-formed tag string `T` whose
address is found in the dataset parsed directly from `B`, `headerHandler` on
`file = K`, `tag = T`, in any later state with the same files, answers 200
with body `Tag T → v`, where `v` renders the value bound to that address; the
same holds for the front-end variant. -/
theorem C4_round_trip {V F I : Type} (lib : Lib V F I) (s s2 : World) (method : String)
    (filename payload tagStr : GoString) (env : UploadEnv) (ds : Dataset V)
    (elem : Element V)
    (hok : (uploadHandler lib s method (some (filename, payload)) env).2.StatusCode = 200)
    (hfs : s2.fs = (uploadHandler lib s method (some (filename, payload)) env).1.fs)
    (ht : WellFormedTag tagStr)
    (hp : lib.Parse payload = Call.ok ds)
    (hfind : FindElementByTag ds (tagAddress tagStr) = some elem) :
    (uploadHandler lib s method (some (filename, payload)) env).2 =
      newWriter.Write (lib.EncodeFile (storedName env.now filename)) ∧
    WithFrontend.uploadHandler lib s method (some (filename, payload)) env =
      uploadHandler lib s method (some (filename, payload)) env ∧
    (headerHandler lib s2 (storedName env.now filename) tagStr).2 =
      some ⟨some 200, lit "Tag " ++ tagStr ++ lit " → " ++ lib.Sprint elem.Value⟩ ∧
    (WithFrontend.headerHandler lib s2 (storedName env.now filename) tagStr).2 =
      some ⟨some 200, lit "Tag " ++ tagStr ++ lit " → " ++ lib.Sprint elem.Value⟩ := by
  obtain ⟨h1, h2⟩ := uploadHandler_success lib s method filename payload env hok
  have hk : storedName env.now filename ≠ [] := by
    unfold storedName
    intro h0
    have := congrArg List.length h0
    simp at this
  have hr : readDataset lib s2 (lib.Join (storedName env.now filename)) = Call.ok ds := by
    rw [readDataset_file lib s2 _ payload (by rw [hfs]; exact h2)]
    exact hp
  have hh : (headerHandler lib s2 (storedName env.now filename) tagStr).2 =
      some ⟨some 200, lit "Tag " ++ tagStr ++ lit " → " ++ lib.Sprint elem.Value⟩ := by
    rw [headerHandler_response lib s2 _ tagStr hk ht, hr]
    simp only [hfind]
  refine ⟨h1, rfl, hh, ?_⟩
  rw [frontend_headerHandler_eq]
  exact hh

/-- Witness of C4: the toy file `[1]` uploaded as "scan.dcm" at tick 42, then
queried for tag 00100010. -/
theorem C4_round_trip_witness :
    (uploadHandler toyLib emptyWorld "POST" (some (lit "scan.dcm", [1]))
      ⟨42, false, none⟩).2.StatusCode = 200 ∧
    WellFormedTag (lit "00100010") ∧
    toyLib.Parse [1] = Call.ok [⟨⟨0x0010, 0x0010⟩, ToyValue.text (lit "Doe")⟩,
      ⟨PixelData, ToyValue.pixels [[7], [8, 9]]⟩] ∧
    ((uploadHandler toyLib emptyWorld "POST" (some (lit "scan.dcm", [1]))
        ⟨42, false, none⟩).2 =
      newWriter.Write (toyLib.EncodeFile (storedName 42 (lit "scan.dcm"))) ∧
    WithFrontend.uploadHandler toyLib emptyWorld "POST" (some (lit "scan.dcm", [1]))
        ⟨42, false, none⟩ =
      uploadHandler toyLib emptyWorld "POST" (some (lit "scan.dcm", [1])) ⟨42, false, none⟩ ∧
    (headerHandler toyLib
        (uploadHandler toyLib emptyWorld "POST" (some (lit "scan.dcm", [1]))
          ⟨42, false, none⟩).1
        (storedName 42 (lit "scan.dcm")) (lit "00100010")).2 =
      some ⟨some 200, lit "Tag " ++ lit "00100010" ++ lit " → " ++ lit "Doe"⟩ ∧
    (WithFrontend.headerHandler toyLib
        (uploadHandler toyLib emptyWorld "POST" (some (lit "scan.dcm", [1]))
          ⟨42, false, none⟩).1
        (storedName 42 (lit "scan.dcm")) (lit "00100010")).2 =
      some ⟨some 200, lit "Tag " ++ lit "00100010" ++ lit " → " ++ lit "Doe"⟩) :=
  ⟨by decide, by decide, rfl,
    C4_round_trip toyLib emptyWorld _ "POST" (lit "scan.dcm") [1] (lit "00100010")
      ⟨42, false, none⟩ _ ⟨⟨0x0010, 0x0010⟩, ToyValue.text (lit "Doe")⟩
      (by decide) rfl (by decide) rfl rfl⟩

/-- C5 counterexample: the request passes validation and the blob is stored,
but the parser panics on it (toy file `[7]`); the handler has no `recover`, so
no response is sent: the outcome is neither the 500 of a rejected blob nor the
404 of an absent tag.  Both variants. -/
theorem C5_parser_panic_sends_no_response :
    lit "k" ≠ [] ∧ WellFormedTag (lit "00100010") ∧
    (toyWorld [7]).fs (toyLib.Join (lit "k")) = some [7] ∧
    (headerHandler toyLib (toyWorld [7]) (lit "k") (lit "00100010")).2 = none ∧
    statusOf (headerHandler toyLib (toyWorld [7]) (lit "k") (lit "00100010")).2 ≠ some 500 ∧
    statusOf (headerHandler toyLib (toyWorld [7]) (lit "k") (lit "00100010")).2 ≠ some 404 ∧
    (WithFrontend.headerHandler toyLib (toyWorld [7]) (lit "k") (lit "00100010")).2 = none := by
  decide

/-- C5 (amended; error discrimination in the Tag Resolver): for a request that
passes validation, a missing blob or a blob for which the parser returns an
error is answered 500 ("failed to parse DICOM"), and a parsed dataset without
the address is answered 404 ("tag not found"); status 500 occurs exactly on a
missing blob or a returned parse error and status 404 exactly on an absent
tag, so neither is reported as the other; no response at all is sent exactly
when the parser panics on the blob.  The front-end variant behaves
identically. -/
theorem C5_error_discrimination {V F I : Type} (lib : Lib V F I) (s : World)
    (fileName tagStr : GoString) (hf : fileName ≠ []) (ht : WellFormedTag tagStr) :
    (s.fs (lib.Join fileName) = none →
      (headerHandler lib s fileName tagStr).2 =
        some ⟨some 500, lit "failed to parse DICOM" ++ [10]⟩) ∧
    (∀ b, s.fs (lib.Join fileName) = some b → lib.Parse b = Call.err →
      (headerHandler lib s fileName tagStr).2 =
        some ⟨some 500, lit "failed to parse DICOM" ++ [10]⟩) ∧
    (∀ b ds, s.fs (lib.Join fileName) = some b → lib.Parse b = Call.ok ds →
      FindElementByTag ds (tagAddress tagStr) = none →
      (headerHandler lib s fileName tagStr).2 =
        some ⟨some 404, lit "tag not found" ++ [10]⟩) ∧
    (∀ b, s.fs (lib.Join fileName) = some b → lib.Parse b = Call.panic →
      (headerHandler lib s fileName tagStr).2 = none) ∧
    (statusOf (headerHandler lib s fileName tagStr).2 = some 500 ↔
      (s.fs (lib.Join fileName) = none ∨
        ∃ b, s.fs (lib.Join fileName) = some b ∧ lib.Parse b = Call.err)) ∧
    (statusOf (headerHandler lib s fileName tagStr).2 = some 404 ↔
      ∃ b ds, s.fs (lib.Join fileName) = some b ∧ lib.Parse b = Call.ok ds ∧
        FindElementByTag ds (tagAddress tagStr) = none) ∧
    ((headerHandler lib s fileName tagStr).2 = none ↔
      ∃ b, s.fs (lib.Join fileName) = some b ∧ lib.Parse b = Call.panic) ∧
    WithFrontend.headerHandler lib s fileName tagStr = headerHandler lib s fileName tagStr := by
  have hh := headerHandler_response lib s fileName tagStr hf ht
  rw [readDataset_eq] at hh
  refine ⟨?_, ?_, ?_, ?_, ?_, ?_, ?_, rfl⟩
  · intro h0
    rw [hh]; simp only [h0]
  · intro b h0 h1
    rw [hh]; simp only [h0, h1]
  · intro b ds h0 h1 h2
    rw [hh]; simp only [h0, h1, h2]
  · intro b h0 h1
    rw [hh]; simp only [h0, h1]
  · rw [hh]
    cases h0 : s.fs (lib.Join fileName) with
    | none => simp [statusOf, ResponseWriter.StatusCode]
    | some b =>
      cases h1 : lib.Parse b with
      | panic => simp [statusOf, h1]
      | err => simp [statusOf, ResponseWriter.StatusCode, h1]
      | ok ds =>
        cases h2 : FindElementByTag ds (tagAddress tagStr) <;>
          simp [statusOf, ResponseWriter.StatusCode, h1, h2]
  · rw [hh]
    cases h0 : s.fs (lib.Join fileName) with
    | none => simp [statusOf, ResponseWriter.StatusCode]
    | some b =>
      cases h1 : lib.Parse b with
      | panic => simp [statusOf, h1]
      | err => simp [statusOf, ResponseWriter.StatusCode, h1]
      | ok ds =>
        cases h2 : FindElementByTag ds (tagAddress tagStr) <;>
          simp [statusOf, ResponseWriter.StatusCode, h1, h2]
  · rw [hh]
    cases h0 : s.fs (lib.Join fileName) with
    | none => simp
    | some b =>
      cases h1 : lib.Parse b with
      | panic => simp [h1]
      | err => simp [h1]
      | ok ds =>
        cases h2 : FindElementByTag ds (tagAddress tagStr) <;> simp [h1, h2]

/-- Witness of C5 (amended): a missing blob, a blob the parser rejects with an
error (`[9]`), a dataset without the tag (`[2]`) and a blob on which the
parser panics (`[7]`). -/
theorem C5_error_discrimination_witness :
    lit "k" ≠ [] ∧ WellFormedTag (lit "00100010") ∧
    emptyWorld.fs (toyLib.Join (lit "k")) = none ∧
    (headerHandler toyLib emptyWorld (lit "k") (lit "00100010")).2 =
      some ⟨some 500, lit "failed to parse DICOM" ++ [10]⟩ ∧
    ((toyWorld [9]).fs (toyLib.Join (lit "k")) = some [9] ∧ toyLib.Parse [9] = Call.err) ∧
    (headerHandler toyLib (toyWorld [9]) (lit "k") (lit "00100010")).2 =
      some ⟨some 500, lit "failed to parse DICOM" ++ [10]⟩ ∧
    ((toyWorld [2]).fs (toyLib.Join (lit "k")) = some [2] ∧
      toyLib.Parse [2] = Call.ok [⟨PixelData, ToyValue.pixels []⟩] ∧
      FindElementByTag [(⟨PixelData, ToyValue.pixels []⟩ : Element ToyValue)]
        (tagAddress (lit "00100010")) = none) ∧
    (headerHandler toyLib (toyWorld [2]) (lit "k") (lit "00100010")).2 =
      some ⟨some 404, lit "tag not found" ++ [10]⟩ ∧
    ((toyWorld [7]).fs (toyLib.Join (lit "k")) = some [7] ∧ toyLib.Parse [7] = Call.panic) ∧
    (headerHandler toyLib (toyWorld [7]) (lit "k") (lit "00100010")).2 = none :=
  ⟨by decide, by decide, rfl,
    (C5_error_discrimination toyLib emptyWorld (lit "k") (lit "00100010")
      (by decide) (by decide)).1 rfl,
    ⟨rfl, rfl⟩,
    (C5_error_discrimination toyLib (toyWorld [9]) (lit "k") (lit "00100010")
      (by decide) (by decide)).2.1 [9] rfl rfl,
    ⟨rfl, rfl, rfl⟩,
    (C5_error_discrimination toyLib (toyWorld [2]) (lit "k") (lit "00100010")
      (by decide) (by decide)).2.2.1 [2] _ rfl rfl rfl,
    ⟨rfl, rfl⟩,
    (C5_error_discrimination toyLib (toyWorld [7]) (lit "k") (lit "00100010")
      (by decide) (by decide)).2.2.2.1 [7] rfl rfl⟩

/-- C6 counterexample: the stored file parses and has a pixel-data element
with one frame, but the conversion of that frame panics (toy file `[8]`; in
the real library a frame parsed with zero samples per pixel); `imageHandler`
has no `recover`, so this conversion failure is answered with no response at
all instead of 500.  The same happens at stage (1) when the parser panics
(toy file `[7]`).  Both variants. -/
theorem C6_conversion_panic_sends_no_response :
    lit "k" ≠ [] ∧
    readDataset toyLib (toyWorld [8]) (toyLib.Join (lit "k")) =
      Call.ok [⟨PixelData, ToyValue.pixels [[255]]⟩] ∧
    toyLib.GetImage [255] = Call.panic ∧
    (imageHandler toyLib (toyWorld [8]) (lit "k")).2 = none ∧
    statusOf (imageHandler toyLib (toyWorld [8]) (lit "k")).2 ≠ some 500 ∧
    (WithFrontend.imageHandler toyLib (toyWorld [8]) (lit "k")).2 = none ∧
    readDataset toyLib (toyWorld [7]) (toyLib.Join (lit "k")) = Call.panic ∧
    (imageHandler toyLib (toyWorld [7]) (lit "k")).2 = none ∧
    (WithFrontend.imageHandler toyLib (toyWorld [7]) (lit "k")).2 = none :=
  ⟨by decide, rfl, rfl, by decide, by decide, by decide, rfl, by decide, by decide⟩

/-- C6 (amended; Frame Extractor error priority): for a non-empty `file`, in
both variants, (1) a blob that is missing or for which the parser returns an
error gives 500 "failed to parse DICOM"; (2) otherwise a dataset without
pixel-data element gives 404 "no PixelData found"; (3) otherwise an empty frame
sequence gives 404 "no image frames present", a response different from that
of (2); (4) otherwise a conversion of frame 0 that returns an error gives 500
"failed to get image".  Each stage is decided whatever the later stages would
do.  When instead the parser, `MustGetPixelDataInfo` or the conversion of
frame 0 panics, the handler sends no response at that stage. -/
theorem C6_frame_extractor_priority {V F I : Type} (lib : Lib V F I) (s : World)
    (fileName : GoString) (hf : fileName ≠ []) :
    ((s.fs (lib.Join fileName) = none ∨
        ∃ b, s.fs (lib.Join fileName) = some b ∧ lib.Parse b = Call.err) →
      (imageHandler lib s fileName).2 =
        some ⟨some 500, lit "failed to parse DICOM" ++ [10]⟩ ∧
      (WithFrontend.imageHandler lib s fileName).2 =
        some ⟨some 500, lit "failed to parse DICOM" ++ [10]⟩) ∧
    (∀ b ds, s.fs (lib.Join fileName) = some b → lib.Parse b = Call.ok ds →
      FindElementByTag ds PixelData = none →
      (imageHandler lib s fileName).2 =
        some ⟨some 404, lit "no PixelData found" ++ [10]⟩ ∧
      (WithFrontend.imageHandler lib s fileName).2 =
        some ⟨some 404, lit "no PixelData found" ++ [10]⟩) ∧
    (∀ b ds pde, s.fs (lib.Join fileName) = some b → lib.Parse b = Call.ok ds →
      FindElementByTag ds PixelData = some pde → lib.Frames pde.Value = some [] →
      (imageHandler lib s fileName).2 =
        some ⟨some 404, lit "no image frames present" ++ [10]⟩ ∧
      (WithFrontend.imageHandler lib s fileName).2 =
        some ⟨some 404, lit "no image frames present" ++ [10]⟩) ∧
    (∀ b ds pde frame0 rest, s.fs (lib.Join fileName) = some b →
      lib.Parse b = Call.ok ds → FindElementByTag ds PixelData = some pde →
      lib.Frames pde.Value = some (frame0 :: rest) → lib.GetImage frame0 = Call.err →
      (imageHandler lib s fileName).2 =
        some ⟨some 500, lit "failed to get image" ++ [10]⟩ ∧
      (WithFrontend.imageHandler lib s fileName).2 =
        some ⟨some 500, lit "failed to get image" ++ [10]⟩) ∧
    (∀ b, s.fs (lib.Join fileName) = some b → lib.Parse b = Call.panic →
      (imageHandler lib s fileName).2 = none ∧
      (WithFrontend.imageHandler lib s fileName).2 = none) ∧
    (∀ b ds pde, s.fs (lib.Join fileName) = some b → lib.Parse b = Call.ok ds →
      FindElementByTag ds PixelData = some pde → lib.Frames pde.Value = none →
      (imageHandler lib s fileName).2 = none ∧
      (WithFrontend.imageHandler lib s fileName).2 = none) ∧
    (∀ b ds pde frame0 rest, s.fs (lib.Join fileName) = some b →
      lib.Parse b = Call.ok ds → FindElementByTag ds PixelData = some pde →
      lib.Frames pde.Value = some (frame0 :: rest) → lib.GetImage frame0 = Call.panic →
      (imageHandler lib s fileName).2 = none ∧
      (WithFrontend.imageHandler lib s fileName).2 = none) ∧
    (ResponseWriter.mk (some 404) (lit "no PixelData found" ++ [10])).StatusCode = 404 ∧
    (ResponseWriter.mk (some 404) (lit "no image frames present" ++ [10])).StatusCode = 404 ∧
    ResponseWriter.mk (some 404) (lit "no PixelData found" ++ [10]) ≠
      ResponseWriter.mk (some 404) (lit "no image frames present" ++ [10]) := by
  have h1 := imageHandler_response lib s fileName hf
  have h2 := frontend_imageHandler_response lib s fileName hf
  rw [readDataset_eq] at h1 h2
  refine ⟨?_, ?_, ?_, ?_, ?_, ?_, ?_, rfl, rfl, by decide⟩
  · intro h
    rcases h with h0 | ⟨b, h0, hp⟩
    · simp only [h0] at h1 h2
      exact ⟨h1, h2⟩
    · simp only [h0, hp] at h1 h2
      exact ⟨h1, h2⟩
  · intro b ds h0 hp hx
    simp only [h0, hp, hx] at h1 h2
    exact ⟨h1, h2⟩
  · intro b ds pde h0 hp hx hfr
    simp only [h0, hp, hx, hfr] at h1 h2
    exact ⟨h1, h2⟩
  · intro b ds pde frame0 rest h0 hp hx hfr hg
    simp only [h0, hp, hx, hfr, frameResponse, frontendFrameResponse, hg] at h1 h2
    exact ⟨h1, h2⟩
  · intro b h0 hp
    simp only [h0, hp] at h1 h2
    exact ⟨h1, h2⟩
  · intro b ds pde h0 hp hx hfr
    simp only [h0, hp, hx, hfr] at h1 h2
    exact ⟨h1, h2⟩
  · intro b ds pde frame0 rest h0 hp hx hfr hg
    simp only [h0, hp, hx, hfr, frameResponse, frontendFrameResponse, hg] at h1 h2
    exact ⟨h1, h2⟩

/-- Witness of C6 (amended): one toy file for each stage: missing blob and
rejected blob `[9]` for (1), `[4]` for (2), `[2]` for (3), `[3]` for (4); and
for the panics the files `[7]` (parser), `[10]` (pixel-data value that is no
pixel data) and `[8]` (conversion). -/
theorem C6_frame_extractor_priority_witness :
    lit "k" ≠ [] ∧
    emptyWorld.fs (toyLib.Join (lit "k")) = none ∧
    (imageHandler toyLib emptyWorld (lit "k")).2 =
      some ⟨some 500, lit "failed to parse DICOM" ++ [10]⟩ ∧
    ((toyWorld [9]).fs (toyLib.Join (lit "k")) = some [9] ∧ toyLib.Parse [9] = Call.err) ∧
    (imageHandler toyLib (toyWorld [9]) (lit "k")).2 =
      some ⟨some 500, lit "failed to parse DICOM" ++ [10]⟩ ∧
    (WithFrontend.imageHandler toyLib (toyWorld [9]) (lit "k")).2 =
      some ⟨some 500, lit "failed to parse DICOM" ++ [10]⟩ ∧
    (imageHandler toyLib (toyWorld [4]) (lit "k")).2 =
      some ⟨some 404, lit "no PixelData found" ++ [10]⟩ ∧
    (WithFrontend.imageHandler toyLib (toyWorld [4]) (lit "k")).2 =
      some ⟨some 404, lit "no PixelData found" ++ [10]⟩ ∧
    (imageHandler toyLib (toyWorld [2]) (lit "k")).2 =
      some ⟨some 404, lit "no image frames present" ++ [10]⟩ ∧
    (WithFrontend.imageHandler toyLib (toyWorld [2]) (lit "k")).2 =
      some ⟨some 404, lit "no image frames present" ++ [10]⟩ ∧
    (imageHandler toyLib (toyWorld [3]) (lit "k")).2 =
      some ⟨some 500, lit "failed to get image" ++ [10]⟩ ∧
    (WithFrontend.imageHandler toyLib (toyWorld [3]) (lit "k")).2 =
      some ⟨some 500, lit "failed to get image" ++ [10]⟩ ∧
    (imageHandler toyLib (toyWorld [7]) (lit "k")).2 = none ∧
    (imageHandler toyLib (toyWorld [10]) (lit "k")).2 = none ∧
    (imageHandler toyLib (toyWorld [8]) (lit "k")).2 = none :=
  ⟨by decide, rfl,
    ((C6_frame_extractor_priority toyLib emptyWorld (lit "k") (by decide)).1
      (Or.inl rfl)).1,
    ⟨rfl, rfl⟩,
    ((C6_frame_extractor_priority toyLib (toyWorld [9]) (lit "k") (by decide)).1
      (Or.inr ⟨[9], rfl, rfl⟩)).1,
    ((C6_frame_extractor_priority toyLib (toyWorld [9]) (lit "k") (by decide)).1
      (Or.inr ⟨[9], rfl, rfl⟩)).2,
    ((C6_frame_extractor_priority toyLib (toyWorld [4]) (lit "k") (by decide)).2.1
      [4] [⟨⟨0x0010, 0x0010⟩, ToyValue.text (lit "Doe")⟩] rfl rfl rfl).1,
    ((C6_frame_extractor_priority toyLib (toyWorld [4]) (lit "k") (by decide)).2.1
      [4] [⟨⟨0x0010, 0x0010⟩, ToyValue.text (lit "Doe")⟩] rfl rfl rfl).2,
    ((C6_frame_extractor_priority toyLib (toyWorld [2]) (lit "k") (by decide)).2.2.1
      [2] [⟨PixelData, ToyValue.pixels []⟩] ⟨PixelData, ToyValue.pixels []⟩
      rfl rfl rfl rfl).1,
    ((C6_frame_extractor_priority toyLib (toyWorld [2]) (lit "k") (by decide)).2.2.1
      [2] [⟨PixelData, ToyValue.pixels []⟩] ⟨PixelData, ToyValue.pixels []⟩
      rfl rfl rfl rfl).2,
    ((C6_frame_extractor_priority toyLib (toyWorld [3]) (lit "k") (by decide)).2.2.2.1
      [3] [⟨PixelData, ToyValue.pixels [[]]⟩] ⟨PixelData, ToyValue.pixels [[]]⟩ [] []
      rfl rfl rfl rfl rfl).1,
    ((C6_frame_extractor_priority toyLib (toyWorld [3]) (lit "k") (by decide)).2.2.2.1
      [3] [⟨PixelData, ToyValue.pixels [[]]⟩] ⟨PixelData, ToyValue.pixels [[]]⟩ [] []
      rfl rfl rfl rfl rfl).2,
    ((C6_frame_extractor_priority toyLib (toyWorld [7]) (lit "k") (by decide)).2.2.2.2.1
      [7] rfl rfl).1,
    ((C6_frame_extractor_priority toyLib (toyWorld [10]) (lit "k") (by decide)).2.2.2.2.2.1
      [10] [⟨PixelData, ToyValue.text (lit "raw")⟩] ⟨PixelData, ToyValue.text (lit "raw")⟩
      rfl rfl rfl rfl).1,
    ((C6_frame_extractor_priority toyLib (toyWorld [8]) (lit "k") (by decide)).2.2.2.2.2.2.1
      [8] [⟨PixelData, ToyValue.pixels [[255]]⟩] ⟨PixelData, ToyValue.pixels [[255]]⟩
      [255] [] rfl rfl rfl rfl rfl).1⟩

/-- C7 (first-frame selection): when the pixel-data element of the parsed
dataset decodes to a non-empty frame sequence `frame0 :: rest`, the response of
`imageHandler` is computed from `frame0` alone, in both variants: when
`GetImage` of frame 0 yields an image and the PNG encoder writes the non-empty
bytes `png` for it without error, the response is status 200 with body exactly
`png`; when `GetImage` of frame 0 returns an error it is 500 "failed to get
image"; when it panics no response is sent.  Two requests whose frame
sequences share the first frame get the same response, whatever the other
frames are. -/
theorem C7_first_frame {V F I : Type} (lib : Lib V F I) (s1 s2 : World)
    (file1 file2 b1 b2 : GoString) (ds1 ds2 : Dataset V) (pde1 pde2 : Element V)
    (frame0 : F) (rest1 rest2 : List F)
    (hf1 : file1 ≠ []) (hf2 : file2 ≠ [])
    (hb1 : s1.fs (lib.Join file1) = some b1) (hb2 : s2.fs (lib.Join file2) = some b2)
    (hd1 : lib.Parse b1 = Call.ok ds1) (hd2 : lib.Parse b2 = Call.ok ds2)
    (hp1 : FindElementByTag ds1 PixelData = some pde1)
    (hp2 : FindElementByTag ds2 PixelData = some pde2)
    (hfr1 : lib.Frames pde1.Value = some (frame0 :: rest1))
    (hfr2 : lib.Frames pde2.Value = some (frame0 :: rest2)) :
    (imageHandler lib s2 file2).2 = (imageHandler lib s1 file1).2 ∧
    (WithFrontend.imageHandler lib s2 file2).2 = (WithFrontend.imageHandler lib s1 file1).2 ∧
    (∀ img png, lib.GetImage frame0 = Call.ok img → lib.Encode img = (png, false) →
      png ≠ [] →
      (imageHandler lib s1 file1).2 = some ⟨some 200, png⟩ ∧
      (WithFrontend.imageHandler lib s1 file1).2 = some ⟨some 200, png⟩) ∧
    (lib.GetImage frame0 = Call.err →
      (imageHandler lib s1 file1).2 = some ⟨some 500, lit "failed to get image" ++ [10]⟩ ∧
      (WithFrontend.imageHandler lib s1 file1).2 =
        some ⟨some 500, lit "failed to get image" ++ [10]⟩) ∧
    (lib.GetImage frame0 = Call.panic →
      (imageHandler lib s1 file1).2 = none ∧
      (WithFrontend.imageHandler lib s1 file1).2 = none) ∧
    (imageHandler lib s1 file1).2 = frameResponse lib frame0 ∧
    (WithFrontend.imageHandler lib s1 file1).2 = frontendFrameResponse lib frame0 := by
  have a1 := imageHandler_response lib s1 file1 hf1
  have a2 := imageHandler_response lib s2 file2 hf2
  have c1 := frontend_imageHandler_response lib s1 file1 hf1
  have c2 := frontend_imageHandler_response lib s2 file2 hf2
  rw [readDataset_eq] at a1 a2 c1 c2
  simp only [hb1, hd1, hp1, hfr1] at a1 c1
  simp only [hb2, hd2, hp2, hfr2] at a2 c2
  refine ⟨a2.trans a1.symm, c2.trans c1.symm, ?_, ?_, ?_, a1, c1⟩
  · intro img png hg he hne
    rw [a1, c1, frameResponse_eq, frontendFrameResponse_eq]
    simp [hg, he, hne]
  · intro hg
    rw [a1, c1, frameResponse_eq, frontendFrameResponse_eq]
    simp [hg]
  · intro hg
    rw [a1, c1, frameResponse_eq, frontendFrameResponse_eq]
    simp [hg]

/-- Witness of C7: the two-frame toy file `[1]` and the one-frame toy file
`[6]` share the first frame `[7]`; both are answered 200 with the PNG bytes of
that frame. -/
theorem C7_first_frame_witness :
    lit "k" ≠ [] ∧
    ((toyWorld [1]).fs (toyLib.Join (lit "k")) = some [1] ∧
      (toyWorld [6]).fs (toyLib.Join (lit "k")) = some [6]) ∧
    (toyLib.Parse [1] = Call.ok [⟨⟨0x0010, 0x0010⟩, ToyValue.text (lit "Doe")⟩,
        ⟨PixelData, ToyValue.pixels [[7], [8, 9]]⟩] ∧
      toyLib.Parse [6] = Call.ok [⟨PixelData, ToyValue.pixels [[7]]⟩]) ∧
    (toyLib.GetImage [7] = Call.ok [7] ∧ toyLib.Encode [7] = ([7], false)) ∧
    (imageHandler toyLib (toyWorld [6]) (lit "k")).2 =
      (imageHandler toyLib (toyWorld [1]) (lit "k")).2 ∧
    (WithFrontend.imageHandler toyLib (toyWorld [6]) (lit "k")).2 =
      (WithFrontend.imageHandler toyLib (toyWorld [1]) (lit "k")).2 ∧
    (imageHandler toyLib (toyWorld [1]) (lit "k")).2 = some ⟨some 200, [7]⟩ ∧
    (WithFrontend.imageHandler toyLib (toyWorld [1]) (lit "k")).2 = some ⟨some 200, [7]⟩ :=
  ⟨by decide, ⟨rfl, rfl⟩, ⟨rfl, rfl⟩, ⟨rfl, rfl⟩,
    (C7_first_frame toyLib (toyWorld [1]) (toyWorld [6]) (lit "k") (lit "k") [1] [6]
      [⟨⟨0x0010, 0x0010⟩, ToyValue.text (lit "Doe")⟩, ⟨PixelData, ToyValue.pixels [[7], [8, 9]]⟩]
      [⟨PixelData, ToyValue.pixels [[7]]⟩]
      ⟨PixelData, ToyValue.pixels [[7], [8, 9]]⟩ ⟨PixelData, ToyValue.pixels [[7]]⟩
      [7] [[8, 9]] [] (by decide) (by decide) rfl rfl rfl rfl rfl rfl rfl rfl).1,
    (C7_first_frame toyLib (toyWorld [1]) (toyWorld [6]) (lit "k") (lit "k") [1] [6]
      [⟨⟨0x0010, 0x0010⟩, ToyValue.text (lit "Doe")⟩, ⟨PixelData, ToyValue.pixels [[7], [8, 9]]⟩]
      [⟨PixelData, ToyValue.pixels [[7]]⟩]
      ⟨PixelData, ToyValue.pixels [[7], [8, 9]]⟩ ⟨PixelData, ToyValue.pixels [[7]]⟩
      [7] [[8, 9]] [] (by decide) (by decide) rfl rfl rfl rfl rfl rfl rfl rfl).2.1,
    ((C7_first_frame toyLib (toyWorld [1]) (toyWorld [6]) (lit "k") (lit "k") [1] [6]
      [⟨⟨0x0010, 0x0010⟩, ToyValue.text (lit "Doe")⟩, ⟨PixelData, ToyValue.pixels [[7], [8, 9]]⟩]
      [⟨PixelData, ToyValue.pixels [[7]]⟩]
      ⟨PixelData, ToyValue.pixels [[7], [8, 9]]⟩ ⟨PixelData, ToyValue.pixels [[7]]⟩
      [7] [[8, 9]] [] (by decide) (by decide) rfl rfl rfl rfl rfl rfl rfl rfl).2.2.1
      [7] [7] rfl rfl (by decide)).1,
    ((C7_first_frame toyLib (toyWorld [1]) (toyWorld [6]) (lit "k") (lit "k") [1] [6]
      [⟨⟨0x0010, 0x0010⟩, ToyValue.text (lit "Doe")⟩, ⟨PixelData, ToyValue.pixels [[7], [8, 9]]⟩]
      [⟨PixelData, ToyValue.pixels [[7]]⟩]
      ⟨PixelData, ToyValue.pixels [[7], [8, 9]]⟩ ⟨PixelData, ToyValue.pixels [[7]]⟩
      [7] [[8, 9]] [] (by decide) (by decide) rfl rfl rfl rfl rfl rfl rfl rfl).2.2.1
      [7] [7] rfl rfl (by decide)).2⟩

/-- C8 counterexample: with no blob stored, a well-formed Tag Resolver request
and a Frame Extractor request are answered with status 500, not with 404. -/
theorem C8_missing_blob_is_server_error :
    emptyWorld.fs (toyLib.Join (lit "k")) = none ∧
    lit "k" ≠ [] ∧ WellFormedTag (lit "00100010") ∧
    statusOf (headerHandler toyLib emptyWorld (lit "k") (lit "00100010")).2 = some 500 ∧
    statusOf (headerHandler toyLib emptyWorld (lit "k") (lit "00100010")).2 ≠ some 404 ∧
    (imageHandler toyLib emptyWorld (lit "k")).2 =
      some (httpError newWriter "failed to parse DICOM" 500) ∧
    statusOf (WithFrontend.headerHandler toyLib emptyWorld (lit "k")
      (lit "00100010")).2 = some 500 ∧
    (WithFrontend.imageHandler toyLib emptyWorld (lit "k")).2 =
      some (httpError newWriter "failed to parse DICOM" 500) := by
  decide

/-- C8 (amended): a well-formed Tag Resolver or Frame Extractor request whose
key refers to no blob is answered with the server error 500 "failed to parse
DICOM", in both variants; it is the very response given when the blob exists
but the parser rejects it with an error. -/
theorem C8_missing_blob_response {V F I : Type} (lib : Lib V F I) (s : World)
    (fileName tagStr : GoString) (hf : fileName ≠ []) (ht : WellFormedTag tagStr)
    (hmiss : s.fs (lib.Join fileName) = none) :
    (headerHandler lib s fileName tagStr).2 =
      some (httpError newWriter "failed to parse DICOM" 500) ∧
    (imageHandler lib s fileName).2 =
      some (httpError newWriter "failed to parse DICOM" 500) ∧
    (WithFrontend.headerHandler lib s fileName tagStr).2 =
      some (httpError newWriter "failed to parse DICOM" 500) ∧
    (WithFrontend.imageHandler lib s fileName).2 =
      some (httpError newWriter "failed to parse DICOM" 500) ∧
    (httpError newWriter "failed to parse DICOM" 500).StatusCode = 500 ∧
    httpError newWriter "failed to parse DICOM" 500 =
      ⟨some 500, lit "failed to parse DICOM" ++ [10]⟩ ∧
    (∀ (s2 : World) (b : GoString), s2.fs (lib.Join fileName) = some b →
      lib.Parse b = Call.err →
      (headerHandler lib s2 fileName tagStr).2 = (headerHandler lib s fileName tagStr).2 ∧
      (imageHandler lib s2 fileName).2 = (imageHandler lib s fileName).2 ∧
      (WithFrontend.headerHandler lib s2 fileName tagStr).2 =
        (WithFrontend.headerHandler lib s fileName tagStr).2 ∧
      (WithFrontend.imageHandler lib s2 fileName).2 =
        (WithFrontend.imageHandler lib s fileName).2) := by
  have r1 : readDataset lib s (lib.Join fileName) = Call.err :=
    readDataset_missing lib s _ hmiss
  have h1 := headerHandler_response lib s fileName tagStr hf ht
  have i1 := imageHandler_response lib s fileName hf
  have j1 := frontend_imageHandler_response lib s fileName hf
  rw [r1] at h1 i1 j1
  simp only [frontend_headerHandler_eq, httpError_new]
  refine ⟨h1, i1, h1, j1, rfl, trivial, ?_⟩
  intro s2 b hb hrej
  have r2 : readDataset lib s2 (lib.Join fileName) = Call.err := by
    rw [readDataset_file lib s2 _ b hb]; exact hrej
  have h2 := headerHandler_response lib s2 fileName tagStr hf ht
  have i2 := imageHandler_response lib s2 fileName hf
  have j2 := frontend_imageHandler_response lib s2 fileName hf
  rw [r2] at h2 i2 j2
  exact ⟨h2.trans h1.symm, i2.trans i1.symm, h2.trans h1.symm, j2.trans j1.symm⟩

/-- Witness of C8 (amended): the key "k" against the empty directory, compared
with a directory where "k" holds the bytes `[9]`, which the parser rejects. -/
theorem C8_missing_blob_response_witness :
    lit "k" ≠ [] ∧ WellFormedTag (lit "00100010") ∧
    emptyWorld.fs (toyLib.Join (lit "k")) = none ∧
    (toyWorld [9]).fs (toyLib.Join (lit "k")) = some [9] ∧ toyLib.Parse [9] = Call.err ∧
    (headerHandler toyLib emptyWorld (lit "k") (lit "00100010")).2 =
      some (httpError newWriter "failed to parse DICOM" 500) ∧
    (imageHandler toyLib emptyWorld (lit "k")).2 =
      some (httpError newWriter "failed to parse DICOM" 500) ∧
    (headerHandler toyLib (toyWorld [9]) (lit "k") (lit "00100010")).2 =
      (headerHandler toyLib emptyWorld (lit "k") (lit "00100010")).2 ∧
    (imageHandler toyLib (toyWorld [9]) (lit "k")).2 =
      (imageHandler toyLib emptyWorld (lit "k")).2 :=
  ⟨by decide, by decide, rfl, rfl, rfl,
    (C8_missing_blob_response toyLib emptyWorld (lit "k") (lit "00100010")
      (by decide) (by decide) rfl).1,
    (C8_missing_blob_response toyLib emptyWorld (lit "k") (lit "00100010")
      (by decide) (by decide) rfl).2.1,
    ((C8_missing_blob_response toyLib emptyWorld (lit "k") (lit "00100010")
      (by decide) (by decide) rfl).2.2.2.2.2.2 (toyWorld [9]) [9] rfl rfl).1,
    ((C8_missing_blob_response toyLib emptyWorld (lit "k") (lit "00100010")
      (by decide) (by decide) rfl).2.2.2.2.2.2 (toyWorld [9]) [9] rfl rfl).2.1⟩

/-- C9 at the failing input: the stored file decodes to one frame whose image
the PNG encoder rejects before writing a byte.  The front-end `imageHandler`
returns with nothing written, which the client receives as status 200; the
handler of the other variant answers 500 "error encoding PNG". -/
theorem C9_frontend_encode_failure_is_200 :
    readDataset toyLib (toyWorld [5]) (toyLib.Join (lit "k")) =
      Call.ok [⟨PixelData, ToyValue.pixels [[0]]⟩] ∧
    toyLib.GetImage [0] = Call.ok [0] ∧ toyLib.Encode [0] = ([], true) ∧
    (WithFrontend.imageHandler toyLib (toyWorld [5]) (lit "k")).2 = some ⟨none, []⟩ ∧
    (ResponseWriter.mk none []).StatusCode = 200 ∧
    statusOf (WithFrontend.imageHandler toyLib (toyWorld [5]) (lit "k")).2 = some 200 ∧
    (imageHandler toyLib (toyWorld [5]) (lit "k")).2 =
      some (httpError newWriter "error encoding PNG" 500) ∧
    (httpError newWriter "error encoding PNG" 500).StatusCode = 500 ∧
    statusOf (imageHandler toyLib (toyWorld [5]) (lit "k")).2 = some 500 :=
  ⟨rfl, rfl, rfl, by decide, rfl, by decide, by decide, rfl, by decide⟩

/-- C10 at the failing input: two successful uploads with the same timestamp
tick and the same filename build the same key, although the timestamp is
prepended "to guarantee uniqueness"; `os.Create` truncates the existing file,
and the bytes `[1]` written under the key by the first upload are replaced by
`[2]` by the second, in both variants. -/
theorem C10_upload_overwrites_existing_key :
    (serveAll toyLib emptyWorld
      [Request.upload "POST" (some (lit "a", [1])) ⟨7, false, none⟩]).fs
        (toyLib.Join (storedName 7 (lit "a"))) = some [1] ∧
    (serveAll toyLib emptyWorld
      [Request.upload "POST" (some (lit "a", [1])) ⟨7, false, none⟩,
       Request.upload "POST" (some (lit "a", [2])) ⟨7, false, none⟩]).fs
        (toyLib.Join (storedName 7 (lit "a"))) = some [2] ∧
    (WithFrontend.serveAll toyLib emptyWorld
      [Request.upload "POST" (some (lit "a", [1])) ⟨7, false, none⟩]).fs
        (toyLib.Join (storedName 7 (lit "a"))) = some [1] ∧
    (WithFrontend.serveAll toyLib emptyWorld
      [Request.upload "POST" (some (lit "a", [1])) ⟨7, false, none⟩,
       Request.upload "POST" (some (lit "a", [2])) ⟨7, false, none⟩]).fs
        (toyLib.Join (storedName 7 (lit "a"))) = some [2] := by
  simp [serveAll, serve, WithFrontend.serveAll, WithFrontend.serve, uploadHandler,
    WithFrontend.uploadHandler]

end DicomGoServer
